import Mathlib

/-!
Shallow embedding of the strike-solana-wallet multisig core.

The definitions below are translated from the repository's Rust sources:
`src/handlers/utils.rs`, `src/model/program_config.rs`, `src/utils.rs`,
`src/processor.rs`, `src/handlers/dapp_transaction_handler.rs`,
`src/handlers/wallet_config_policy_update_handler.rs` and
`src/handlers/balance_account_policy_update_handler.rs`.

Pieces of the repository that are only declared or called from those files
(notably `model/multisig_op.rs`, `model/wallet.rs`, `model/opt_array.rs`,
`error.rs`) are not present in the source tree; those are modelled from the
specification and carry a doc comment starting with "Modelled from the spec".

Machine integers are modelled as Nat / Int with explicit range checks where
the Rust code performs checked arithmetic; fallible Rust functions returning
`Result<_, ProgramError>` become `Except ProgErr _`.
-/

/-- Modelled from the spec: the union of the program's error codes
(`error.rs` / `WalletError` is not under src; the variants are those used by
the files under src and by the spec's error taxonomy). -/
inductive ProgErr where
  | MissingRequiredSignature
  | InvalidArgument
  | InvalidAccountData
  | IncorrectProgramId
  | AmountOverflow
  | SimulationFinished
  | InvalidSignature
  | WalletNotFound
  | InvalidSourceAccount
  | InsufficientBalance
  | ConcurrentOperationsNotAllowed
  | DestinationNotAllowed
  deriving DecidableEq, Repr

deriving instance DecidableEq for Except

/-- Rust u64 checked_add: `a.checked_add(b)` is None exactly on overflow. -/
def checked_add_u64 (a b : Nat) : Option Nat :=
  if a + b < 2 ^ 64 then some (a + b) else none

/-- Rust i64 range lower bound. -/
def i64_min : Int := -(2 ^ 63)

/-- Rust i64 range upper bound. -/
def i64_max : Int := 2 ^ 63 - 1

/-- Rust i64 checked_add. -/
def checked_add_i64 (a b : Int) : Option Int :=
  if i64_min ≤ a + b ∧ a + b ≤ i64_max then some (a + b) else none

/-- Rust `u64 as i64` cast: reduce mod 2^64 and reinterpret as two's
complement signed. -/
def u64_as_i64 (n : Nat) : Int :=
  if n % 2 ^ 64 < 2 ^ 63 then ((n % 2 ^ 64 : Nat) : Int)
  else ((n % 2 ^ 64 : Nat) : Int) - 2 ^ 64

/-- From src/handlers/utils.rs `calculate_expires`: the Rust code computes
`start.checked_add(duration.as_secs() as i64)` and maps None to
`ProgramError::InvalidArgument`.  `duration.as_secs()` is a u64, so the
`as i64` cast wraps before the checked addition. -/
def calculate_expires (start : Int) (duration_secs : Nat) : Except ProgErr Int :=
  match checked_add_i64 start (u64_as_i64 duration_secs) with
  | none => .error .InvalidArgument
  | some v => .ok v

/-- Modelled from the spec: an approver's recorded vote
(`model/multisig_op.rs` is not under src). -/
inductive ApprovalDisposition where
  | NONE
  | APPROVE
  | DENY
  deriving DecidableEq, Repr

/-- Modelled from the spec: the derived overall outcome of a multisig
proposal (`model/multisig_op.rs` is not under src). -/
inductive OperationDisposition where
  | NONE
  | APPROVED
  | DENIED
  | EXPIRED
  deriving DecidableEq, Repr

/-- Payload of an opaque external-call instruction (its bytes abstracted). -/
structure Instruction where
  data : Nat
  deriving DecidableEq, Repr

/-- Update delta for the program-level config, from `instruction.rs` as used
by `ProgramConfig::update`.  Signers and address book entries are abstracted
to their identity (a Nat). -/
structure ProgramConfigUpdate where
  approvals_required_for_config : Nat
  add_signers : List Nat
  remove_signers : List Nat
  add_config_approvers : List Nat
  remove_config_approvers : List Nat
  add_address_book_entries : List Nat
  remove_address_book_entries : List Nat
  deriving DecidableEq, Repr

/-- Update delta for a wallet-level config, from `instruction.rs` as used by
`ProgramConfig::update_wallet_config`. -/
structure WalletConfigUpdate where
  name_hash : Nat
  approvals_required_for_transfer : Nat
  add_transfer_approvers : List Nat
  remove_transfer_approvers : List Nat
  add_allowed_destinations : List Nat
  remove_allowed_destinations : List Nat
  deriving DecidableEq, Repr

/-- Modelled from the spec: a wallet config-policy update delta
(`instruction.rs` / `WalletConfigPolicyUpdate` is not under src): a new
threshold, a new timeout and the approver key set to take effect. -/
structure WalletConfigPolicyUpdate where
  approvals_required_for_config : Nat
  approval_timeout_for_config : Nat
  config_approvers : List Nat
  deriving DecidableEq, Repr

/-- Modelled from the spec: a balance-account policy update delta
(`instruction.rs` / `BalanceAccountPolicyUpdate` is not under src). -/
structure BalanceAccountPolicyUpdate where
  approvals_required_for_transfer : Nat
  approval_timeout_for_transfer : Nat
  transfer_approvers : List Nat
  deriving DecidableEq, Repr

/-- Canonical parameters of a proposed action, used to compute the stored
fingerprint; the constructors are the `MultisigOpParams` variants built by
the files under src. -/
inductive MultisigOpParams where
  | UpdateProgramConfig (program_config_address : Nat) (config_update : ProgramConfigUpdate)
  | UpdateWalletConfig (program_config_address : Nat) (wallet_guid_hash : Nat) (config_update : WalletConfigUpdate)
  | UpdateWalletConfigPolicy (wallet_address : Nat) (update : WalletConfigPolicyUpdate)
  | UpdateBalanceAccountPolicy (wallet_address : Nat) (account_guid_hash : Nat) (update : BalanceAccountPolicyUpdate)
  | DAppTransaction (wallet_address : Nat) (account_guid_hash : Nat) (instructions : List Instruction)
  deriving DecidableEq, Repr

/-- A parameter fingerprint. The cryptographic hash of the canonical
serialization is modelled by the canonical parameters themselves (an
injective, collision-free hash), wrapped to keep hashes and parameters
distinct types. -/
structure ParamsHash where
  val : MultisigOpParams
  deriving DecidableEq, Repr

/-- Modelled from the spec: computing the fingerprint of action parameters. -/
def hash_of_params (p : MultisigOpParams) : ParamsHash := ⟨p⟩

/-- Modelled from the spec: one approver's disposition record. -/
structure ApprovalDispositionRecord where
  approver : Nat
  disposition : ApprovalDisposition
  deriving DecidableEq, Repr

/-- Modelled from the spec: the persisted multisig operation record
(`model/multisig_op.rs` is not under src). -/
structure MultisigOp where
  disposition_records : List ApprovalDispositionRecord
  dispositions_required : Nat
  started_at : Int
  expires_at : Int
  params_hash : ParamsHash
  operation_disposition : OperationDisposition
  deriving DecidableEq, Repr

/-- Count of records carrying a given disposition. -/
def count_disposition (records : List ApprovalDispositionRecord) (d : ApprovalDisposition) : Nat :=
  (records.filter (fun r => r.disposition = d)).length

/-- Modelled from the spec: the derived operation disposition — APPROVED once
approvals reach `dispositions_required`; DENIED once denies make the required
approve-count impossible (denies > total − required); otherwise NONE.
Time-based expiry is evaluated lazily at query time, not stored. -/
def calc_operation_disposition (records : List ApprovalDispositionRecord) (required : Nat) : OperationDisposition :=
  if required ≤ count_disposition records .APPROVE then .APPROVED
  else if records.length - required < count_disposition records .DENY then .DENIED
  else .NONE

/-- Modelled from the spec: proposal initialization — snapshot the approver
keys, set all dispositions to NONE, store timestamps and the parameter
fingerprint. -/
def MultisigOp.init (approver_keys : List Nat) (required : Nat)
    (started_at expires_at : Int) (params : MultisigOpParams) : MultisigOp :=
  { disposition_records := approver_keys.map (fun k => ⟨k, .NONE⟩)
    dispositions_required := required
    started_at := started_at
    expires_at := expires_at
    params_hash := hash_of_params params
    operation_disposition := .NONE }

/-- Modelled from the spec: recording one approver's disposition — the caller
must present the exact current fingerprint (mismatch is a hard error), must
be one of the snapshotted approvers, overwrites only that approver's own
record, then the operation disposition is recomputed. -/
def MultisigOp.record_disposition (op : MultisigOp) (approver : Nat)
    (d : ApprovalDisposition) (fingerprint : ParamsHash) : Except ProgErr MultisigOp :=
  if fingerprint ≠ op.params_hash then .error .InvalidSignature
  else if (op.disposition_records.filter (fun r => r.approver = approver)).length = 0 then
    .error .InvalidArgument
  else
    let records := op.disposition_records.map
      (fun r => if r.approver = approver then { r with disposition := d } else r)
    .ok { op with
          disposition_records := records
          operation_disposition := calc_operation_disposition records op.dispositions_required }

/-- Modelled from the spec: the approval check used by finalize — recompute
the fingerprint of the caller-supplied expected parameters and compare with
the stored one (mismatch is a fingerprint-mismatch error); on a match return
true exactly when the disposition is APPROVED and the operation is not
expired (`now > expires_at` means expired), false otherwise. -/
def MultisigOp.approved (op : MultisigOp) (expected : MultisigOpParams) (now : Int) :
    Except ProgErr Bool :=
  if hash_of_params expected ≠ op.params_hash then .error .InvalidSignature
  else .ok (op.operation_disposition = .APPROVED ∧ ¬ (op.expires_at < now) : Bool)

/-- Modelled from the spec: the clockless approval check of the older
`multisig_op.rs` called by `processor.rs` (no expiry parameter): fingerprint
guard, then true exactly when the disposition is APPROVED. -/
def MultisigOp.approved_no_clock (op : MultisigOp) (expected : MultisigOpParams) :
    Except ProgErr Bool :=
  if hash_of_params expected ≠ op.params_hash then .error .InvalidSignature
  else .ok (op.operation_disposition = .APPROVED : Bool)

/-- A host account as the handlers observe it: its lamport balance, its data
(a multisig operation record, or none once the data has been zeroed /
truncated to length 0), and whether it signed the current call. -/
structure AccountInfo where
  lamports : Nat
  dataOp : Option MultisigOp
  is_signer : Bool
  deriving DecidableEq, Repr

/-- From src/handlers/utils.rs `collect_remaining_balance`: move the whole
lamport balance of `fromAcc` to `toAcc` (checked u64 addition, overflow is
`AmountOverflow`), zero the source balance and truncate its data. -/
def collect_remaining_balance (fromAcc toAcc : AccountInfo) :
    Except ProgErr (AccountInfo × AccountInfo) :=
  match checked_add_u64 toAcc.lamports fromAcc.lamports with
  | none => .error .AmountOverflow
  | some v =>
    .ok ({ fromAcc with lamports := 0, dataOp := none }, { toAcc with lamports := v })

/-- From src/handlers/utils.rs `finalize_multisig_op`: require the rent
recipient's signature, unpack the operation record (fails once the record's
data has been reclaimed), run the approval check, run the gated effect only
when it returned true, then reclaim the record's balance and storage.  The
gated effect is a state transformer on σ; the returned Bool reports whether
it ran. -/
def finalize_multisig_op {σ : Type} (multisig_op_account : AccountInfo)
    (account_to_return_rent_to : AccountInfo) (now : Int)
    (expected_params : MultisigOpParams)
    (on_op_approved : σ → Except ProgErr σ) (s : σ) :
    Except ProgErr (AccountInfo × AccountInfo × σ × Bool) :=
  if account_to_return_rent_to.is_signer = false then
    .error .MissingRequiredSignature
  else match multisig_op_account.dataOp with
  | none => .error .InvalidAccountData
  | some op =>
    match op.approved expected_params now with
    | .error e => .error e
    | .ok is_approved =>
      match (if is_approved then on_op_approved s else .ok s) with
      | .error e => .error e
      | .ok s' =>
        match collect_remaining_balance multisig_op_account account_to_return_rent_to with
        | .error e => .error e
        | .ok (opAcc', rentAcc') => .ok (opAcc', rentAcc', s', is_approved)

/-- Modelled from the spec: indexes of live registry entries whose item is in
the given list (`model/opt_array.rs` is not under src; per spec section 4.1
`remove_many` returns the freed slot ids and `find_slots` does a linear
equality scan over the bounded registry). -/
def registry_matching_indexes (arr : List (Option Nat)) (items : List Nat) : List Nat :=
  (List.range arr.length).filter
    (fun i => match arr.getD i none with
      | some x => decide (x ∈ items)
      | none => false)

/-- Modelled from the spec: clear every registry entry equal to one of the
given items; removing an absent item is a no-op for that item. -/
def registry_remove (arr : List (Option Nat)) (items : List Nat) : List (Option Nat) :=
  arr.map (fun e => match e with
    | some x => if x ∈ items then none else some x
    | none => none)

/-- Modelled from the spec: insert the items in input order, each into the
lowest-numbered free slot; none (failure) when a free slot runs out, in which
case the caller treats the whole update as failed. -/
def registry_add : List (Option Nat) → List Nat → Option (List (Option Nat))
  | arr, [] => some arr
  | arr, x :: xs =>
    match arr.findIdx? Option.isNone with
    | none => none
    | some i => registry_add (arr.set i (some x)) xs

/-- Clear the given bit positions of a bitset (bitvec `set(idx, false)`). -/
def clear_bits (bs : List Bool) (idxs : List Nat) : List Bool :=
  idxs.foldl (fun b i => b.set i false) bs

/-- Set the given bit positions of a bitset (bitvec `set(idx, true)`). -/
def set_bits (bs : List Bool) (idxs : List Nat) : List Bool :=
  idxs.foldl (fun b i => b.set i true) bs

/-- From src/model/program_config.rs: one wallet's sub-configuration. -/
structure WalletConfig where
  wallet_guid_hash : Nat
  wallet_name_hash : Nat
  approvals_required_for_transfer : Nat
  transfer_approvers : List Bool
  allowed_destinations : List Bool
  deriving DecidableEq, Repr

/-- From src/model/program_config.rs: the program-level configuration record
(the `is_initialized` flag and packing are omitted; signers and address book
entries are abstracted to their identity). -/
structure ProgramConfig where
  signers : List (Option Nat)
  assistant : Nat
  address_book : List (Option Nat)
  approvals_required_for_config : Nat
  config_approvers : List Bool
  wallets : List WalletConfig
  deriving DecidableEq, Repr

/-- From src/model/program_config.rs `ProgramConfig::update`, signer block:
apply removals first, clearing each freed slot's bit in the config-approvers
bitset and in every wallet's transfer-approvers bitset, then apply additions,
failing when the signer registry is out of capacity. -/
def update_signers_phase (cfg : ProgramConfig) (u : ProgramConfigUpdate) :
    Except ProgErr ProgramConfig :=
  if u.add_signers.length > 0 ∨ u.remove_signers.length > 0 then
    let freed := registry_matching_indexes cfg.signers u.remove_signers
    let signers1 := registry_remove cfg.signers u.remove_signers
    let approvers1 := clear_bits cfg.config_approvers freed
    let wallets1 := cfg.wallets.map
      (fun w => { w with transfer_approvers := clear_bits w.transfer_approvers freed })
    match registry_add signers1 u.add_signers with
    | none => .error .InvalidArgument
    | some signers2 =>
      .ok { cfg with signers := signers2, config_approvers := approvers1, wallets := wallets1 }
  else .ok cfg

/-- From src/model/program_config.rs `ProgramConfig::update`, config-approver
block: clear the bits of removed approvers, set the bits of added approvers,
and fail when some added approver is not configured as a signer. -/
def update_config_approvers_phase (cfg : ProgramConfig) (u : ProgramConfigUpdate) :
    Except ProgErr ProgramConfig :=
  if u.add_config_approvers.length > 0 ∨ u.remove_config_approvers.length > 0 then
    let bs1 := clear_bits cfg.config_approvers (registry_matching_indexes cfg.signers u.remove_config_approvers)
    let add_idx := registry_matching_indexes cfg.signers u.add_config_approvers
    let bs2 := set_bits bs1 add_idx
    if add_idx.length < u.add_config_approvers.length then .error .InvalidArgument
    else .ok { cfg with config_approvers := bs2 }
  else .ok cfg

/-- From src/model/program_config.rs `ProgramConfig::update`, address-book
block: apply removals first, clearing each freed slot's bit in every wallet's
allowed-destinations bitset, then apply additions, failing when the address
book is out of capacity. -/
def update_address_book_phase (cfg : ProgramConfig) (u : ProgramConfigUpdate) :
    Except ProgErr ProgramConfig :=
  if u.add_address_book_entries.length > 0 ∨ u.remove_address_book_entries.length > 0 then
    let freed := registry_matching_indexes cfg.address_book u.remove_address_book_entries
    let ab1 := registry_remove cfg.address_book u.remove_address_book_entries
    let wallets1 := cfg.wallets.map
      (fun w => { w with allowed_destinations := clear_bits w.allowed_destinations freed })
    match registry_add ab1 u.add_address_book_entries with
    | none => .error .InvalidArgument
    | some ab2 => .ok { cfg with address_book := ab2, wallets := wallets1 }
  else .ok cfg

/-- From src/model/program_config.rs `ProgramConfig::update`: store the new
threshold, run the three delta blocks in order, then reject the whole update
when the new threshold exceeds the number of configured approvers. -/
def ProgramConfig.update (cfg : ProgramConfig) (u : ProgramConfigUpdate) :
    Except ProgErr ProgramConfig :=
  match update_signers_phase
      { cfg with approvals_required_for_config := u.approvals_required_for_config } u with
  | .error e => .error e
  | .ok cfg1 =>
    match update_config_approvers_phase cfg1 u with
    | .error e => .error e
    | .ok cfg2 =>
      match update_address_book_phase cfg2 u with
      | .error e => .error e
      | .ok cfg3 =>
        if cfg3.config_approvers.count true < u.approvals_required_for_config then
          .error .InvalidArgument
        else .ok cfg3

/-- From src/model/program_config.rs `ProgramConfig::update_wallet_config`,
transfer-approver block: clear the bits of removed approvers, set the bits of
added approvers, failing when an added approver is not configured as a
signer. -/
def update_transfer_approvers_block (signers : List (Option Nat))
    (wc : WalletConfig) (u : WalletConfigUpdate) : Except ProgErr WalletConfig :=
  if u.add_transfer_approvers.length > 0 ∨ u.remove_transfer_approvers.length > 0 then
    let bs1 := clear_bits wc.transfer_approvers
      (registry_matching_indexes signers u.remove_transfer_approvers)
    let add_idx := registry_matching_indexes signers u.add_transfer_approvers
    if add_idx.length < u.add_transfer_approvers.length then .error .InvalidArgument
    else .ok { wc with transfer_approvers := set_bits bs1 add_idx }
  else .ok wc

/-- From src/model/program_config.rs `ProgramConfig::update_wallet_config`,
allowed-destination block: clear the bits of removed destinations, set the
bits of added destinations, failing when an added destination is not in the
address book. -/
def update_allowed_destinations_block (address_book : List (Option Nat))
    (wc : WalletConfig) (u : WalletConfigUpdate) : Except ProgErr WalletConfig :=
  if u.add_allowed_destinations.length > 0 ∨ u.remove_allowed_destinations.length > 0 then
    let bs1 := clear_bits wc.allowed_destinations
      (registry_matching_indexes address_book u.remove_allowed_destinations)
    let add_idx := registry_matching_indexes address_book u.add_allowed_destinations
    if add_idx.length < u.add_allowed_destinations.length then .error .InvalidArgument
    else .ok { wc with allowed_destinations := set_bits bs1 add_idx }
  else .ok wc

/-- From src/model/program_config.rs `ProgramConfig::update_wallet_config`,
body acting on the selected wallet: store name hash and threshold, apply the
transfer-approver block and the allowed-destination block, then reject when
the new threshold exceeds the number of configured transfer approvers. -/
def update_wallet_config_inner (signers address_book : List (Option Nat))
    (wc : WalletConfig) (u : WalletConfigUpdate) : Except ProgErr WalletConfig :=
  match update_transfer_approvers_block signers
      { wc with
        wallet_name_hash := u.name_hash
        approvals_required_for_transfer := u.approvals_required_for_transfer } u with
  | .error e => .error e
  | .ok wc1 =>
    match update_allowed_destinations_block address_book wc1 u with
    | .error e => .error e
    | .ok wc2 =>
      if wc2.transfer_approvers.count true < u.approvals_required_for_transfer then
        .error .InvalidArgument
      else .ok wc2

/-- From src/model/program_config.rs `ProgramConfig::update_wallet_config`:
locate the wallet by guid hash (error when absent) and rewrite it with the
updated sub-configuration. -/
def ProgramConfig.update_wallet_config (cfg : ProgramConfig) (guid : Nat)
    (u : WalletConfigUpdate) : Except ProgErr ProgramConfig :=
  match cfg.wallets.findIdx? (fun w => w.wallet_guid_hash == guid) with
  | none => .error .WalletNotFound
  | some idx =>
    match update_wallet_config_inner cfg.signers cfg.address_book
        (cfg.wallets.getD idx ⟨0, 0, 0, [], []⟩) u with
    | .error e => .error e
    | .ok wc' => .ok { cfg with wallets := cfg.wallets.set idx wc' }

/-- The accounts touched by a processor-level config finalize: the multisig
operation account, the program-config account (its address and its unpacked
data) and the rent-recipient account. -/
structure ConfigChainState where
  op_account : AccountInfo
  config_account_address : Nat
  config_data : ProgramConfig
  rent_account : AccountInfo
  deriving DecidableEq, Repr

/-- From src/processor.rs `Processor::handle_finalize_config_update`: check
the rent recipient's signature first, unpack the operation record, run the
clockless approval check against the recomputed expected parameters, apply
and pack the config update only when approved, then reclaim the operation
record's balance and storage.  The result pairs the mutated account state
with the error, if any; every early error leaves the state exactly as it was
because `ProgramConfig::pack` only runs after a successful update. -/
def handle_finalize_config_update (st : ConfigChainState) (u : ProgramConfigUpdate) :
    ConfigChainState × Option ProgErr :=
  if st.rent_account.is_signer = false then (st, some .MissingRequiredSignature)
  else match st.op_account.dataOp with
  | none => (st, some .InvalidAccountData)
  | some op =>
    match op.approved_no_clock (.UpdateProgramConfig st.config_account_address u) with
    | .error e => (st, some e)
    | .ok true =>
      match st.config_data.update u with
      | .error e => (st, some e)
      | .ok cfg' =>
        let st1 := { st with config_data := cfg' }
        match collect_remaining_balance st1.op_account st1.rent_account with
        | .error e => (st1, some e)
        | .ok (opAcc', rentAcc') =>
          ({ st1 with op_account := opAcc', rent_account := rentAcc' }, none)
    | .ok false =>
      match collect_remaining_balance st.op_account st.rent_account with
      | .error e => (st, some e)
      | .ok (opAcc', rentAcc') =>
        ({ st with op_account := opAcc', rent_account := rentAcc' }, none)

/-- From src/processor.rs `Processor::handle_finalize_wallet_config_update`:
same shape as the program-level finalize, but the gated effect is
`ProgramConfig::update_wallet_config` for the given wallet guid hash. -/
def handle_finalize_wallet_config_update (st : ConfigChainState) (guid : Nat)
    (u : WalletConfigUpdate) : ConfigChainState × Option ProgErr :=
  if st.rent_account.is_signer = false then (st, some .MissingRequiredSignature)
  else match st.op_account.dataOp with
  | none => (st, some .InvalidAccountData)
  | some op =>
    match op.approved_no_clock (.UpdateWalletConfig st.config_account_address guid u) with
    | .error e => (st, some e)
    | .ok true =>
      match st.config_data.update_wallet_config guid u with
      | .error e => (st, some e)
      | .ok cfg' =>
        let st1 := { st with config_data := cfg' }
        match collect_remaining_balance st1.op_account st1.rent_account with
        | .error e => (st1, some e)
        | .ok (opAcc', rentAcc') =>
          ({ st1 with op_account := opAcc', rent_account := rentAcc' }, none)
    | .ok false =>
      match collect_remaining_balance st.op_account st.rent_account with
      | .error e => (st, some e)
      | .ok (opAcc', rentAcc') =>
        ({ st with op_account := opAcc', rent_account := rentAcc' }, none)

/-- From src/utils.rs `OptArray`: a fixed-capacity array of optional items
together with the free-slot bookkeeping vector (a Rust `Vec` used as a
stack: `pop` takes its last element). -/
structure OptArray where
  array : List (Option Nat)
  free_slots : List Nat
  deriving DecidableEq, Repr

/-- From src/utils.rs `OptArray::from_vec`: the free-slot vector collects the
positions of the empty slots in ascending index order. -/
def OptArray.from_vec (v : List (Option Nat)) : OptArray :=
  { array := v
    free_slots := (List.range v.length).filter (fun i => (v.getD i none).isNone) }

/-- From src/utils.rs `OptArray::has_capacity`. -/
def OptArray.has_capacity (a : OptArray) (capacity : Nat) : Bool :=
  capacity ≤ a.free_slots.length

/-- Loop body of src/utils.rs `OptArray::insert_many`: for each item in input
order, pop the last free slot off the vector and store the item there. -/
def OptArray.insert_loop : OptArray → List Nat → OptArray
  | a, [] => a
  | a, x :: xs =>
    OptArray.insert_loop
      { array := a.array.set (a.free_slots.getLastD 0) (some x)
        free_slots := a.free_slots.dropLast }
      xs

/-- From src/utils.rs `OptArray::insert_many`: the Rust code panics (which
aborts the whole call, modelled as an error) when the number of free slots is
smaller than the number of items, before touching the array; otherwise each
item is stored into the slot popped from the end of the free-slot vector, in
input order. -/
def OptArray.insert_many (a : OptArray) (add_items : List Nat) : Except ProgErr OptArray :=
  if a.has_capacity add_items.length = false then .error .InvalidArgument
  else .ok (a.insert_loop add_items)

/-- From src/utils.rs `OptArray::find_ref`: position of the first slot
holding the item. -/
def OptArray.find_ref (a : OptArray) (item : Nat) : Option Nat :=
  a.array.findIdx? (fun e => e == some item)

/-- Stated from the claim's words, for comparison with the source: an
insert that assigns each new item the lowest-numbered free slot, in input
order, failing on insufficient capacity. -/
def insert_many_lowest_first : List (Option Nat) → List Nat → Option (List (Option Nat)) :=
  registry_add

/-- Modelled from the spec: one balance account's policy fields
(`model/balance_account.rs` is not under src): threshold, timeout, approver
key set and the per-domain policy-update lock flag. -/
structure BalanceAccount where
  guid_hash : Nat
  approvals_required_for_transfer : Nat
  approval_timeout_for_transfer : Nat
  transfer_approvers : List Nat
  policy_update_locked : Bool
  deriving DecidableEq, Repr

/-- Modelled from the spec: the wallet record (`model/wallet.rs` is not under
src): config threshold, timeout, config-approver key set, the wallet-wide
config-policy lock flag and the balance accounts. -/
structure Wallet where
  assistant : Nat
  approvals_required_for_config : Nat
  approval_timeout_for_config : Nat
  config_approvers : List Nat
  config_policy_update_locked : Bool
  balance_accounts : List BalanceAccount
  deriving DecidableEq, Repr

/-- Modelled from the spec: initiator validation — the initiator must have
signed, and must be the assistant key or one of the config approvers. -/
def Wallet.validate_config_initiator (w : Wallet) (initiator : Nat)
    (initiator_is_signer : Bool) : Except ProgErr Unit :=
  if initiator_is_signer = false then .error .InvalidSignature
  else if initiator = w.assistant ∨ initiator ∈ w.config_approvers then .ok ()
  else .error .InvalidArgument

/-- Modelled from the spec: `lock(domain)` for the wallet-wide config policy
domain — fails if already locked, otherwise sets the lock flag. -/
def Wallet.lock_config_policy_updates (w : Wallet) : Except ProgErr Wallet :=
  if w.config_policy_update_locked then .error .ConcurrentOperationsNotAllowed
  else .ok { w with config_policy_update_locked := true }

/-- Modelled from the spec: `unlock(domain)` for the wallet-wide config
policy domain — idempotent, always clears the flag. -/
def Wallet.unlock_config_policy_updates (w : Wallet) : Wallet :=
  { w with config_policy_update_locked := false }

/-- Modelled from the spec: apply a config-policy update — store the new
threshold, timeout and approver set, rejecting a threshold that exceeds the
approver count. -/
def Wallet.update_config_policy (w : Wallet) (u : WalletConfigPolicyUpdate) :
    Except ProgErr Wallet :=
  if u.config_approvers.length < u.approvals_required_for_config then .error .InvalidArgument
  else .ok { w with
             approvals_required_for_config := u.approvals_required_for_config
             approval_timeout_for_config := u.approval_timeout_for_config
             config_approvers := u.config_approvers }

/-- Modelled from the spec: pre-flight a config-policy update against a
throwaway copy. -/
def Wallet.validate_config_policy_update (w : Wallet) (u : WalletConfigPolicyUpdate) :
    Except ProgErr Unit :=
  (w.update_config_policy u).map (fun _ => ())

/-- Modelled from the spec: `lock(domain)` for one balance account's policy
domain — fails when the account is unknown or already locked. -/
def Wallet.lock_balance_account_policy_updates (w : Wallet) (guid : Nat) :
    Except ProgErr Wallet :=
  match w.balance_accounts.find? (fun b => b.guid_hash == guid) with
  | none => .error .WalletNotFound
  | some b =>
    if b.policy_update_locked then .error .ConcurrentOperationsNotAllowed
    else .ok { w with balance_accounts :=
      w.balance_accounts.map (fun b' =>
        if b'.guid_hash == guid then { b' with policy_update_locked := true } else b') }

/-- Modelled from the spec: `unlock(domain)` for one balance account's policy
domain — idempotent on the lock flag, fails only for an unknown account. -/
def Wallet.unlock_balance_account_policy_updates (w : Wallet) (guid : Nat) :
    Except ProgErr Wallet :=
  match w.balance_accounts.find? (fun b => b.guid_hash == guid) with
  | none => .error .WalletNotFound
  | some _ => .ok { w with balance_accounts :=
      w.balance_accounts.map (fun b' =>
        if b'.guid_hash == guid then { b' with policy_update_locked := false } else b') }

/-- Modelled from the spec: apply a balance-account policy update — store the
new threshold, timeout and approver set on the selected account, rejecting a
threshold that exceeds the approver count. -/
def Wallet.update_balance_account_policy (w : Wallet) (guid : Nat)
    (u : BalanceAccountPolicyUpdate) : Except ProgErr Wallet :=
  match w.balance_accounts.find? (fun b => b.guid_hash == guid) with
  | none => .error .WalletNotFound
  | some _ =>
    if u.transfer_approvers.length < u.approvals_required_for_transfer then
      .error .InvalidArgument
    else .ok { w with balance_accounts :=
      w.balance_accounts.map (fun b' =>
        if b'.guid_hash == guid then
          { b' with
            approvals_required_for_transfer := u.approvals_required_for_transfer
            approval_timeout_for_transfer := u.approval_timeout_for_transfer
            transfer_approvers := u.transfer_approvers }
        else b') }

/-- Modelled from the spec: pre-flight a balance-account policy update
against a throwaway copy. -/
def Wallet.validate_balance_account_policy_update (w : Wallet) (guid : Nat)
    (u : BalanceAccountPolicyUpdate) : Except ProgErr Unit :=
  (w.update_balance_account_policy guid u).map (fun _ => ())

/-- From src/handlers/utils.rs `start_multisig_config_op`: initialize the
multisig operation account from the wallet's config-approval policy, with
`expires_at` computed by `calculate_expires`. -/
def start_multisig_config_op (multisig_op_account : AccountInfo) (w : Wallet)
    (now : Int) (params : MultisigOpParams) : Except ProgErr AccountInfo :=
  match calculate_expires now w.approval_timeout_for_config with
  | .error e => .error e
  | .ok expires =>
    .ok { multisig_op_account with
          dataOp := some (MultisigOp.init w.config_approvers
            w.approvals_required_for_config now expires params) }

/-- From src/handlers/wallet_config_policy_update_handler.rs `init`:
validate the initiator, take the wallet-wide config-policy lock (failing if
it is already held), pre-flight the update, create the multisig operation,
and persist the locked wallet. -/
def wallet_config_policy_init (multisig_op_account : AccountInfo)
    (wallet_address : Nat) (wallet : Wallet) (initiator : Nat)
    (initiator_is_signer : Bool) (now : Int) (u : WalletConfigPolicyUpdate) :
    Except ProgErr (Wallet × AccountInfo) :=
  match wallet.validate_config_initiator initiator initiator_is_signer with
  | .error e => .error e
  | .ok _ =>
    match wallet.lock_config_policy_updates with
    | .error e => .error e
    | .ok w =>
      match w.validate_config_policy_update u with
      | .error e => .error e
      | .ok _ =>
        match start_multisig_config_op multisig_op_account w now
            (.UpdateWalletConfigPolicy wallet_address u) with
        | .error e => .error e
        | .ok opAcc => .ok (w, opAcc)

/-- From src/handlers/wallet_config_policy_update_handler.rs `finalize`: run
the generic multisig finalize with the config-policy update as the gated
effect, then unconditionally release the wallet-wide config-policy lock and
persist the wallet. -/
def wallet_config_policy_finalize (multisig_op_account rent_account : AccountInfo)
    (wallet_address : Nat) (wallet : Wallet) (now : Int)
    (u : WalletConfigPolicyUpdate) :
    Except ProgErr (Wallet × AccountInfo × AccountInfo) :=
  match finalize_multisig_op multisig_op_account rent_account now
      (.UpdateWalletConfigPolicy wallet_address u)
      (fun w => w.update_config_policy u) wallet with
  | .error e => .error e
  | .ok (opAcc', rentAcc', w', _ran) =>
    .ok (w'.unlock_config_policy_updates, opAcc', rentAcc')

/-- From src/handlers/balance_account_policy_update_handler.rs `init`:
validate the initiator, take the balance account's policy lock (failing if
it is already held), pre-flight the update, create the multisig operation,
and persist the locked wallet. -/
def balance_account_policy_init (multisig_op_account : AccountInfo)
    (wallet_address : Nat) (wallet : Wallet) (initiator : Nat)
    (initiator_is_signer : Bool) (now : Int) (guid : Nat)
    (u : BalanceAccountPolicyUpdate) : Except ProgErr (Wallet × AccountInfo) :=
  match wallet.validate_config_initiator initiator initiator_is_signer with
  | .error e => .error e
  | .ok _ =>
    match wallet.lock_balance_account_policy_updates guid with
    | .error e => .error e
    | .ok w =>
      match w.validate_balance_account_policy_update guid u with
      | .error e => .error e
      | .ok _ =>
        match start_multisig_config_op multisig_op_account w now
            (.UpdateBalanceAccountPolicy wallet_address guid u) with
        | .error e => .error e
        | .ok opAcc => .ok (w, opAcc)

/-- From src/handlers/balance_account_policy_update_handler.rs `finalize`:
run the generic multisig finalize with the balance-account policy update as
the gated effect, then release that account's policy lock and persist the
wallet. -/
def balance_account_policy_finalize (multisig_op_account rent_account : AccountInfo)
    (wallet_address : Nat) (wallet : Wallet) (now : Int) (guid : Nat)
    (u : BalanceAccountPolicyUpdate) :
    Except ProgErr (Wallet × AccountInfo × AccountInfo) :=
  match finalize_multisig_op multisig_op_account rent_account now
      (.UpdateBalanceAccountPolicy wallet_address guid u)
      (fun w => w.update_balance_account_policy guid u) wallet with
  | .error e => .error e
  | .ok (opAcc', rentAcc', w', _ran) =>
    match w'.unlock_balance_account_policy_updates guid with
    | .error e => .error e
    | .ok w'' => .ok (w'', opAcc', rentAcc')

/-- A host account as the dapp finalize observes it: address, owner, lamport
balance and, for accounts that parse as SPL token accounts, the (mint,
amount) pair; `spl_data = none` models data that `SPLAccount::unpack`
rejects. -/
structure DAccount where
  key : Nat
  owner : Nat
  lamports : Nat
  spl_data : Option (Nat × Nat)
  deriving DecidableEq, Repr

/-- The SPL token program id, abstracted to an arbitrary fixed address. -/
def spl_token_program_id : Nat := 1

/-- From src/handlers/dapp_transaction_handler.rs `SplBalance`. -/
structure SplBalance where
  account : Nat
  token_mint : Nat
  balance : Nat
  deriving DecidableEq, Repr

/-- From src/handlers/dapp_transaction_handler.rs `account_balances`: the
lamport balance of every account, in account order. -/
def account_balances (accounts : List DAccount) : List Nat :=
  accounts.map (fun a => a.lamports)

/-- From src/handlers/dapp_transaction_handler.rs `spl_balances`: one entry
per account owned by the SPL token program whose data unpacks as a token
account. -/
def spl_balances (accounts : List DAccount) : List SplBalance :=
  accounts.filterMap (fun a =>
    if a.owner = spl_token_program_id then
      a.spl_data.map (fun md => ⟨a.key, md.1, md.2⟩)
    else none)

/-- From src/handlers/dapp_transaction_handler.rs
`balance_changes_from_simulation`: the native deltas (account index,
increased?, amount) for every account whose lamports changed, and the SPL
deltas for every ending SPL balance that differs from its starting balance
(missing starting entries count as 0); the reported index is the account's
position in the account list. -/
def balance_changes_from_simulation (starting_balances : List Nat)
    (starting_spl_balances : List SplBalance) (ending_balances : List Nat)
    (ending_spl_balances : List SplBalance) (accounts : List DAccount) :
    List (Nat × Bool × Nat) × List (Nat × Bool × Nat) :=
  let balance_changes := (List.range starting_balances.length).filterMap (fun i =>
    let s := starting_balances.getD i 0
    let e := ending_balances.getD i 0
    if s < e then some (i, true, e - s)
    else if e < s then some (i, false, s - e)
    else none)
  let spl_balance_changes := ending_spl_balances.filterMap (fun endB =>
    let s := (((starting_spl_balances.find? (fun st =>
      st.account == endB.account && st.token_mint == endB.token_mint)).map
        (fun st => st.balance)).getD 0)
    if endB.balance = s then none
    else
      let idx := (accounts.findIdx? (fun a => a.key == endB.account)).getD 0
      if s < endB.balance then some (idx, true, endB.balance - s)
      else some (idx, false, s - endB.balance))
  (balance_changes, spl_balance_changes)

/-- Run the staged external instructions in order under the derived
authority; the host's `invoke_signed` is a parameter, and the first failing
instruction aborts the whole call. -/
def invoke_all (invoke : Instruction → List DAccount → Except ProgErr (List DAccount)) :
    List Instruction → List DAccount → Except ProgErr (List DAccount)
  | [], accs => .ok accs
  | i :: rest, accs =>
    match invoke i accs with
    | .error e => .error e
    | .ok accs' => invoke_all invoke rest accs'

/-- Outcome of the dapp finalize: `success` is the only non-error return;
`simulation` is the deliberate error return (`WalletError::SimulationFinished`)
carrying the reported balance-delta sets; `failure` is any other error
return. -/
inductive DappFinalizeResult where
  | success (op_account rent_account : AccountInfo) (accounts : List DAccount)
  | simulation (changes : List (Nat × Bool × Nat) × List (Nat × Bool × Nat))
  | failure (e : ProgErr)
  deriving DecidableEq, Repr

/-- From src/handlers/dapp_transaction_handler.rs `finalize`: require the
rent collector's signature, unpack the operation record, run the approval
check — swallowing an approval-check error into `is_approved = false` via
`unwrap_or_else` — validate the balance account's derived address, sample
balances when not approved, invoke every staged instruction, and then either
reclaim the record (approved) or report the balance-delta sets and fail with
`SimulationFinished` (not approved). -/
def dapp_transaction_finalize (multisig_op_account rent_collector : AccountInfo)
    (wallet_address account_guid_hash : Nat) (balance_account_valid : Bool)
    (now : Int) (instructions : List Instruction) (accounts : List DAccount)
    (invoke : Instruction → List DAccount → Except ProgErr (List DAccount)) :
    DappFinalizeResult :=
  if rent_collector.is_signer = false then .failure .MissingRequiredSignature
  else match multisig_op_account.dataOp with
  | none => .failure .InvalidAccountData
  | some op =>
    let expected := MultisigOpParams.DAppTransaction wallet_address account_guid_hash instructions
    let is_approved := match op.approved expected now with
      | .ok b => b
      | .error _ => false
    if balance_account_valid = false then .failure .InvalidSourceAccount
    else
      let starting_balances := if is_approved then [] else account_balances accounts
      let starting_spl_balances := if is_approved then [] else spl_balances accounts
      match invoke_all invoke instructions accounts with
      | .error e => .failure e
      | .ok accounts' =>
        if is_approved then
          match collect_remaining_balance multisig_op_account rent_collector with
          | .error e => .failure e
          | .ok (opAcc', rentAcc') => .success opAcc' rentAcc' accounts'
        else
          .simulation (balance_changes_from_simulation starting_balances
            starting_spl_balances (account_balances accounts')
            (spl_balances accounts') accounts')

/-- Store each item of `items` at the corresponding slot of `slots`
(pairwise, in order); used to state the closed form of `insert_many`. -/
def place_at (arr : List (Option Nat)) (slots : List Nat) (items : List Nat) :
    List (Option Nat) :=
  (List.zip slots items).foldl (fun a si => a.set si.1 (some si.2)) arr

/-! ## Helper lemmas about bitsets as boolean lists -/

theorem clear_getD_self (l : List Bool) (i : Nat) :
    (l.set i false).getD i false = false := by
  rw [List.getD_eq_getElem?_getD]
  by_cases h : i < l.length
  · rw [List.getElem?_set_self h]; rfl
  · have hnone : (l.set i false)[i]? = none := by
      rw [List.getElem?_eq_none]
      simpa using Nat.le_of_not_lt h
    rw [hnone]; rfl

theorem set_getD_ne (l : List Bool) (i j : Nat) (b : Bool) (h : i ≠ j) :
    (l.set i b).getD j false = l.getD j false := by
  simp [List.getD_eq_getElem?_getD, List.getElem?_set_ne h]

theorem clear_bits_getD_of_false (idxs : List Nat) (bs : List Bool) (i : Nat)
    (h : bs.getD i false = false) : (clear_bits bs idxs).getD i false = false := by
  induction idxs generalizing bs with
  | nil => simpa [clear_bits] using h
  | cons x xs ih =>
    show (clear_bits (bs.set x false) xs).getD i false = false
    apply ih
    by_cases hxi : x = i
    · subst hxi; exact clear_getD_self bs x
    · rw [set_getD_ne bs x i false hxi]; exact h

theorem clear_bits_getD_of_mem (idxs : List Nat) (bs : List Bool) (i : Nat)
    (h : i ∈ idxs) : (clear_bits bs idxs).getD i false = false := by
  induction idxs generalizing bs with
  | nil => cases h
  | cons x xs ih =>
    show (clear_bits (bs.set x false) xs).getD i false = false
    rcases List.mem_cons.mp h with h1 | h2
    · subst h1
      exact clear_bits_getD_of_false xs _ i (clear_getD_self bs i)
    · exact ih (bs.set x false) h2

theorem set_bits_getD_of_not_mem (idxs : List Nat) (bs : List Bool) (i : Nat)
    (h : i ∉ idxs) : (set_bits bs idxs).getD i false = bs.getD i false := by
  induction idxs generalizing bs with
  | nil => simp [set_bits]
  | cons x xs ih =>
    show (set_bits (bs.set x true) xs).getD i false = bs.getD i false
    have hxi : x ≠ i := fun he => h (he ▸ List.mem_cons_self x xs)
    rw [ih (bs.set x true) (fun hm => h (List.mem_cons_of_mem x hm)), set_getD_ne bs x i true hxi]

/-! ## C9: expiry computation -/

/-- C9 counterexample: the claim says that for all values of now and the
timeout duration, init never stores a wrapped-around expires_at.  At
now = 0 and a duration of 2^63 seconds the true expiry 0 + 2^63 exceeds
i64_max, yet `calculate_expires` silently returns the wrapped value
-(2^63) instead of an error, because `duration.as_secs() as i64` wraps
before the overflow-checked addition. -/
theorem calculate_expires_wraps_counterexample :
    calculate_expires 0 (2 ^ 63) = .ok (-(2 ^ 63)) ∧
    i64_max < (0 : Int) + ((2 : Nat) ^ 63 : Nat) := by
  constructor
  · rfl
  · decide

/-- C9 (amended): for every start time in i64 range and every timeout whose
seconds fit in i64 (duration below 2^63 seconds, so the u64-to-i64 cast is
lossless), `calculate_expires` errors exactly when now + duration overflows
i64, and any returned value is exactly now + duration — never wrapped. -/
theorem calculate_expires_overflow_fatal (start : Int) (d : Nat)
    (hlo : i64_min ≤ start) (hhi : start ≤ i64_max) (hd : d < 2 ^ 63) :
    (calculate_expires start d = .error .InvalidArgument ↔ i64_max < start + d) ∧
    ∀ v, calculate_expires start d = .ok v → v = start + d := by
  have h64 : d < 2 ^ 64 := lt_trans hd (by norm_num)
  have hcast : u64_as_i64 d = (d : Int) := by
    simp only [u64_as_i64, Nat.mod_eq_of_lt h64]
    rw [if_pos hd]
  have hge : i64_min ≤ start + d := by
    have hd0 : (0 : Int) ≤ (d : Int) := Int.natCast_nonneg d
    omega
  by_cases hle : start + (d : Int) ≤ i64_max
  · constructor
    · simp only [calculate_expires, checked_add_i64, hcast, hge, hle, and_true, if_pos]
      constructor
      · intro hcontra; cases hcontra
      · intro hcontra; omega
    · intro v hv
      simp only [calculate_expires, checked_add_i64, hcast, hge, hle, and_true, if_pos] at hv
      cases hv; rfl
  · constructor
    · simp only [calculate_expires, checked_add_i64, hcast, hge, true_and]
      rw [if_neg (by omega)]
      simp only [true_iff]
      omega
    · intro v hv
      simp only [calculate_expires, checked_add_i64, hcast, hge, true_and] at hv
      rw [if_neg (by omega)] at hv
      cases hv

/-- Witness for the amended C9 theorem at start = 5 and a 10-second
timeout. -/
theorem calculate_expires_overflow_fatal_witness :
    (calculate_expires 5 10 = .error .InvalidArgument ↔ i64_max < (5 : Int) + (10 : Nat)) ∧
    ∀ v, calculate_expires 5 10 = .ok v → v = (5 : Int) + (10 : Nat) :=
  calculate_expires_overflow_fatal 5 10 (by decide) (by decide) (by norm_num)

/-! ## C7: slot registry insertion -/

theorem insert_loop_closed_form (items : List Nat) :
    ∀ (a : OptArray), items.length ≤ a.free_slots.length →
      OptArray.insert_loop a items =
        { array := place_at a.array (a.free_slots.reverse.take items.length) items
          free_slots := a.free_slots.take (a.free_slots.length - items.length) } := by
  induction items with
  | nil =>
    intro a h
    simp [OptArray.insert_loop, place_at]
  | cons x xs ih =>
    intro a h
    rcases List.eq_nil_or_concat a.free_slots with hfs | ⟨ys, y, hfs⟩
    · rw [hfs] at h; simp at h
    · rw [List.concat_eq_append] at hfs
      have hk : xs.length ≤ ys.length := by
        rw [hfs] at h; simp at h; omega
      simp only [OptArray.insert_loop]
      rw [hfs, List.getLastD_concat, List.dropLast_concat]
      have hrec := ih { array := a.array.set y (some x), free_slots := ys }
        (by simpa using hk)
      simp only at hrec
      rw [hrec]
      congr 1
      · simp only [List.length_cons, List.take_succ_cons]
        simp [place_at]
      · simp only [List.length_cons, List.length_append, List.length_singleton,
          List.length_nil, Nat.zero_add]
        have hn : ys.length + 1 - (xs.length + 1) = ys.length - xs.length := by omega
        rw [hn, List.take_append_eq_append_take]
        have h0 : ys.length - xs.length - ys.length = 0 := by omega
        rw [h0]
        simp

/-- C7 counterexample: the claim says `insert_many` assigns each new item
the lowest-numbered free slot. On a two-slot registry with both slots free,
inserting one item stores it in slot 1 — the highest-numbered free slot —
because the free-slot vector is popped from its end, while the claim's
lowest-slot-first insert would store it in slot 0. -/
theorem insert_many_not_lowest_counterexample :
    OptArray.insert_many (OptArray.from_vec [none, none]) [7]
      = .ok { array := [none, some 7], free_slots := [0] } ∧
    insert_many_lowest_first [none, none] [7] = some [some 7, none] ∧
    ([none, some 7] : List (Option Nat)) ≠ [some 7, none] := by
  refine ⟨?_, ?_, ?_⟩ <;> decide

/-- C7 (amended): `insert_many` fails (and, the failure happening before any
write, leaves the registry unchanged) exactly when the number of free slots
is smaller than the number of items; on success it assigns each new item, in
input order, the slot popped from the end of the free-slot vector — for a
freshly unpacked registry the highest-numbered free slot first — per the
closed form below. -/
theorem insert_many_capacity_and_highest_slots (a : OptArray) (items : List Nat) :
    (OptArray.insert_many a items = .error .InvalidArgument ↔
      a.free_slots.length < items.length) ∧
    ∀ b, OptArray.insert_many a items = .ok b →
      b.array = place_at a.array (a.free_slots.reverse.take items.length) items ∧
      b.free_slots = a.free_slots.take (a.free_slots.length - items.length) := by
  by_cases hc : items.length ≤ a.free_slots.length
  · have hcap : a.has_capacity items.length = true := by
      simpa [OptArray.has_capacity] using hc
    constructor
    · simp only [OptArray.insert_many, hcap]
      simp only [Bool.true_eq_false, if_false, iff_iff_implies_and_implies]
      constructor
      · intro hcontra; cases hcontra
      · intro hcontra; omega
    · intro b hb
      simp only [OptArray.insert_many, hcap, Bool.true_eq_false, if_false] at hb
      cases hb
      exact ⟨congrArg OptArray.array (insert_loop_closed_form items a hc),
        congrArg OptArray.free_slots (insert_loop_closed_form items a hc)⟩
  · have hcap : a.has_capacity items.length = false := by
      simpa [OptArray.has_capacity] using hc
    constructor
    · simp only [OptArray.insert_many, hcap, if_true]
      simp only [true_iff]
      omega
    · intro b hb
      simp only [OptArray.insert_many, hcap, if_true] at hb
      cases hb

/-- Witness for the amended C7 theorem on a three-slot registry with free
slots 0, 1, 2: inserting two items fills slots 2 then 1. -/
theorem insert_many_capacity_witness :
    ({ array := [none, some 9, some 8], free_slots := [0] } : OptArray).array =
      place_at (OptArray.from_vec [none, none, none]).array
        ((OptArray.from_vec [none, none, none]).free_slots.reverse.take [8, 9].length) [8, 9] ∧
    ({ array := [none, some 9, some 8], free_slots := [0] } : OptArray).free_slots =
      (OptArray.from_vec [none, none, none]).free_slots.take
        ((OptArray.from_vec [none, none, none]).free_slots.length - [8, 9].length) :=
  (insert_many_capacity_and_highest_slots (OptArray.from_vec [none, none, none]) [8, 9]).2
    { array := [none, some 9, some 8], free_slots := [0] } (by decide)

/-! ## C2: the finalize approval check -/

/-- C2: the approval check recomputes the fingerprint of the caller-supplied
expected parameters and compares it with the stored one.  (1) On a mismatch
it fails with the fingerprint-mismatch error, and the generic finalize then
fails without running the gated effect (the result is that error for every
effect function).  (2) On a match it returns true exactly when the
disposition is APPROVED and the operation is not expired.  (3) For a DENIED
or expired operation it returns false — not an error — and the generic
finalize still reclaims the record's storage and balance while skipping the
gated effect. -/
theorem approved_fingerprint_check :
    (∀ (op : MultisigOp) (expected : MultisigOpParams) (now : Int),
      hash_of_params expected ≠ op.params_hash →
        op.approved expected now = .error .InvalidSignature ∧
        ∀ (σ : Type) (effect : σ → Except ProgErr σ) (s : σ)
          (opl rentl : Nat) (rd : Option MultisigOp) (osig : Bool),
          finalize_multisig_op ⟨opl, some op, osig⟩ ⟨rentl, rd, true⟩ now expected effect s
            = .error .InvalidSignature) ∧
    (∀ (op : MultisigOp) (expected : MultisigOpParams) (now : Int),
      hash_of_params expected = op.params_hash →
        op.approved expected now
          = .ok (decide (op.operation_disposition = .APPROVED ∧ ¬ op.expires_at < now))) ∧
    (∀ (op : MultisigOp) (expected : MultisigOpParams) (now : Int),
      hash_of_params expected = op.params_hash →
      (op.operation_disposition = .DENIED ∨ op.expires_at < now) →
        op.approved expected now = .ok false ∧
        ∀ (σ : Type) (effect : σ → Except ProgErr σ) (s : σ)
          (opl rentl : Nat) (rd : Option MultisigOp) (osig : Bool),
          rentl + opl < 2 ^ 64 →
          finalize_multisig_op ⟨opl, some op, osig⟩ ⟨rentl, rd, true⟩ now expected effect s
            = .ok (⟨0, none, osig⟩, ⟨rentl + opl, rd, true⟩, s, false)) := by
  refine ⟨?_, ?_, ?_⟩
  · intro op expected now h
    have ha : op.approved expected now = .error .InvalidSignature := by
      simp [MultisigOp.approved, h]
    refine ⟨ha, ?_⟩
    intro σ effect s opl rentl rd osig
    simp [finalize_multisig_op, ha]
  · intro op expected now h
    simp [MultisigOp.approved, h]
  · intro op expected now h hdeny
    have ha : op.approved expected now = .ok false := by
      rcases hdeny with h1 | h2
      · simp [MultisigOp.approved, h, h1]
      · simp [MultisigOp.approved, h, h2]
    refine ⟨ha, ?_⟩
    intro σ effect s opl rentl rd osig hov
    have hov' : rentl + opl < 18446744073709551616 := by omega
    simp [finalize_multisig_op, ha, collect_remaining_balance, checked_add_u64, hov']

/-- Witness for C2 on a concrete denied 1-of-1 operation: a wrong-parameter
finalize errors with the fingerprint mismatch, while the exact parameters
yield false (not an error) and the generic finalize still reclaims the
record. -/
theorem approved_fingerprint_check_witness :
    MultisigOp.approved
        { disposition_records := [⟨2, .DENY⟩], dispositions_required := 1,
          started_at := 0, expires_at := 100,
          params_hash := hash_of_params (.UpdateWalletConfigPolicy 1 ⟨1, 100, [2]⟩),
          operation_disposition := .DENIED }
        (.UpdateWalletConfigPolicy 2 ⟨1, 100, [2]⟩) 0 = .error .InvalidSignature ∧
    MultisigOp.approved
        { disposition_records := [⟨2, .DENY⟩], dispositions_required := 1,
          started_at := 0, expires_at := 100,
          params_hash := hash_of_params (.UpdateWalletConfigPolicy 1 ⟨1, 100, [2]⟩),
          operation_disposition := .DENIED }
        (.UpdateWalletConfigPolicy 1 ⟨1, 100, [2]⟩) 0 = .ok false ∧
    finalize_multisig_op
        ⟨5, some { disposition_records := [⟨2, .DENY⟩], dispositions_required := 1,
                   started_at := 0, expires_at := 100,
                   params_hash := hash_of_params (.UpdateWalletConfigPolicy 1 ⟨1, 100, [2]⟩),
                   operation_disposition := .DENIED }, false⟩
        ⟨7, none, true⟩ 0 (.UpdateWalletConfigPolicy 1 ⟨1, 100, [2]⟩)
        (fun n : Nat => .ok n) 3
      = .ok (⟨0, none, false⟩, ⟨7 + 5, none, true⟩, 3, false) := by
  refine ⟨?_, ?_, ?_⟩
  · exact (approved_fingerprint_check.1 _ _ 0 (by decide)).1
  · exact (approved_fingerprint_check.2.2 _ _ 0 (by decide) (Or.inl (by decide))).1
  · exact (approved_fingerprint_check.2.2 _ _ 0 (by decide) (Or.inl (by decide))).2
      Nat (fun n : Nat => .ok n) 3 5 7 none false (by norm_num)

/-! ## C1: finalize reclaims exactly once -/

/-- C1: with a matching fingerprint, a signing rent recipient and a
non-overflowing balance transfer, the first finalize succeeds — whatever the
outcome (approved, denied or expired) it transfers the operation record's
entire deposit balance to the recipient and zeroes the record's storage, and
runs the gated effect exactly when the approval check yields true.  A second
finalize on the reclaimed record fails with a record-already-reclaimed error
for every gated effect, so the effect can never run twice. -/
theorem finalize_multisig_op_exactly_once (op : MultisigOp) (opl rentl : Nat)
    (rd : Option MultisigOp) (osig : Bool) (now : Int) (params : MultisigOpParams)
    (σ : Type) (effect : σ → Except ProgErr σ) (s s' : σ)
    (hmatch : hash_of_params params = op.params_hash)
    (heff : (op.operation_disposition = .APPROVED ∧ ¬ op.expires_at < now) → effect s = .ok s')
    (hov : rentl + opl < 2 ^ 64) :
    finalize_multisig_op ⟨opl, some op, osig⟩ ⟨rentl, rd, true⟩ now params effect s
      = .ok (⟨0, none, osig⟩, ⟨rentl + opl, rd, true⟩,
             if op.operation_disposition = .APPROVED ∧ ¬ op.expires_at < now then s' else s,
             decide (op.operation_disposition = .APPROVED ∧ ¬ op.expires_at < now)) ∧
    ∀ (τ : Type) (effect₂ : τ → Except ProgErr τ) (t : τ) (rent₂ : AccountInfo),
      rent₂.is_signer = true →
      finalize_multisig_op ⟨0, none, osig⟩ rent₂ now params effect₂ t
        = .error .InvalidAccountData := by
  constructor
  · have ha : op.approved params now
        = .ok (decide (op.operation_disposition = .APPROVED ∧ ¬ op.expires_at < now)) := by
      simp [MultisigOp.approved, hmatch]
    have hov' : rentl + opl < 18446744073709551616 := by omega
    by_cases hd : op.operation_disposition = .APPROVED ∧ ¬ op.expires_at < now
    · rw [if_pos hd]
      simp [finalize_multisig_op, ha, decide_eq_true hd, heff hd,
        collect_remaining_balance, checked_add_u64, hov']
      rw [if_pos ⟨hd.1, not_lt.mp hd.2⟩]
    · rw [if_neg hd]
      simp [finalize_multisig_op, ha, decide_eq_false hd,
        collect_remaining_balance, checked_add_u64, hov']
      rw [if_neg (fun hc => hd ⟨hc.1, not_lt.mpr hc.2⟩)]
  · intro τ effect₂ t rent₂ hsig
    simp [finalize_multisig_op, hsig]

/-- Witness for C1 on a concrete approved 1-of-1 operation: the first
finalize runs the effect and reclaims the record; the second errors. -/
theorem finalize_multisig_op_exactly_once_witness :
    finalize_multisig_op
        ⟨5, some { disposition_records := [⟨2, .APPROVE⟩], dispositions_required := 1,
                   started_at := 0, expires_at := 100,
                   params_hash := hash_of_params (.UpdateWalletConfigPolicy 1 ⟨1, 100, [2]⟩),
                   operation_disposition := .APPROVED }, false⟩
        ⟨7, none, true⟩ 0 (.UpdateWalletConfigPolicy 1 ⟨1, 100, [2]⟩)
        (fun n : Nat => .ok (n + 1)) 3
      = .ok (⟨0, none, false⟩, ⟨7 + 5, none, true⟩,
             if ({ disposition_records := [⟨2, .APPROVE⟩], dispositions_required := 1,
                   started_at := 0, expires_at := 100,
                   params_hash := hash_of_params (.UpdateWalletConfigPolicy 1 ⟨1, 100, [2]⟩),
                   operation_disposition := .APPROVED } : MultisigOp).operation_disposition
                    = .APPROVED ∧
                 ¬ ({ disposition_records := [⟨2, .APPROVE⟩], dispositions_required := 1,
                      started_at := 0, expires_at := 100,
                      params_hash := hash_of_params (.UpdateWalletConfigPolicy 1 ⟨1, 100, [2]⟩),
                      operation_disposition := .APPROVED } : MultisigOp).expires_at < 0
             then 3 + 1 else 3,
             decide (({ disposition_records := [⟨2, .APPROVE⟩], dispositions_required := 1,
                        started_at := 0, expires_at := 100,
                        params_hash := hash_of_params (.UpdateWalletConfigPolicy 1 ⟨1, 100, [2]⟩),
                        operation_disposition := .APPROVED } : MultisigOp).operation_disposition
                         = .APPROVED ∧
                      ¬ ({ disposition_records := [⟨2, .APPROVE⟩], dispositions_required := 1,
                           started_at := 0, expires_at := 100,
                           params_hash := hash_of_params (.UpdateWalletConfigPolicy 1 ⟨1, 100, [2]⟩),
                           operation_disposition := .APPROVED } : MultisigOp).expires_at < 0)) ∧
    finalize_multisig_op (⟨0, none, false⟩ : AccountInfo) ⟨7 + 5, none, true⟩ 0
        (.UpdateWalletConfigPolicy 1 ⟨1, 100, [2]⟩) (fun n : Nat => .ok (n + 1)) 4
      = .error .InvalidAccountData := by
  have h := finalize_multisig_op_exactly_once
    { disposition_records := [⟨2, .APPROVE⟩], dispositions_required := 1,
      started_at := 0, expires_at := 100,
      params_hash := hash_of_params (.UpdateWalletConfigPolicy 1 ⟨1, 100, [2]⟩),
      operation_disposition := .APPROVED }
    5 7 none false 0 (.UpdateWalletConfigPolicy 1 ⟨1, 100, [2]⟩)
    Nat (fun n : Nat => .ok (n + 1)) 3 (3 + 1) (by decide) (fun _ => rfl) (by norm_num)
  exact ⟨h.1, h.2 Nat (fun n : Nat => .ok (n + 1)) 4 ⟨7 + 5, none, true⟩ rfl⟩

/-! ## C10: finalize requires the rent recipient's signature -/

/-- C10: in every finalize path — the generic handler finalize, the
processor's program-config and wallet-config finalizes, and the dapp
finalize — a non-signing rent/deposit recipient makes the call fail with the
missing-required-signature error before the operation record is read (the
result is the same for every content of the operation account, including an
already-reclaimed one) and with the account state left unchanged. -/
theorem finalize_requires_rent_recipient_signature :
    (∀ (σ : Type) (opAcc rentAcc : AccountInfo) (now : Int)
      (params : MultisigOpParams) (effect : σ → Except ProgErr σ) (s : σ),
      rentAcc.is_signer = false →
      finalize_multisig_op opAcc rentAcc now params effect s
        = .error .MissingRequiredSignature) ∧
    (∀ (st : ConfigChainState) (u : ProgramConfigUpdate),
      st.rent_account.is_signer = false →
      handle_finalize_config_update st u = (st, some .MissingRequiredSignature)) ∧
    (∀ (st : ConfigChainState) (guid : Nat) (u : WalletConfigUpdate),
      st.rent_account.is_signer = false →
      handle_finalize_wallet_config_update st guid u
        = (st, some .MissingRequiredSignature)) ∧
    (∀ (opAcc rent : AccountInfo) (waddr guid : Nat) (bav : Bool) (now : Int)
      (instrs : List Instruction) (accounts : List DAccount)
      (invoke : Instruction → List DAccount → Except ProgErr (List DAccount)),
      rent.is_signer = false →
      dapp_transaction_finalize opAcc rent waddr guid bav now instrs accounts invoke
        = .failure .MissingRequiredSignature) := by
  refine ⟨?_, ?_, ?_, ?_⟩
  · intro σ opAcc rentAcc now params effect s h
    simp [finalize_multisig_op, h]
  · intro st u h
    simp [handle_finalize_config_update, h]
  · intro st guid u h
    simp [handle_finalize_wallet_config_update, h]
  · intro opAcc rent waddr guid bav now instrs accounts invoke h
    simp [dapp_transaction_finalize, h]

/-- Witness for C10 at concrete unsigned-recipient inputs across all four
finalize entry points. -/
theorem finalize_requires_rent_recipient_signature_witness :
    finalize_multisig_op ⟨5, none, true⟩ ⟨7, none, false⟩ 0
        (.UpdateWalletConfigPolicy 1 ⟨1, 100, [2]⟩) (fun n : Nat => .ok n) 3
      = .error .MissingRequiredSignature ∧
    handle_finalize_config_update
        ⟨⟨5, none, true⟩, 9, ⟨[], 0, [], 0, [], []⟩, ⟨7, none, false⟩⟩
        ⟨0, [], [], [], [], [], []⟩
      = (⟨⟨5, none, true⟩, 9, ⟨[], 0, [], 0, [], []⟩, ⟨7, none, false⟩⟩,
         some .MissingRequiredSignature) ∧
    handle_finalize_wallet_config_update
        ⟨⟨5, none, true⟩, 9, ⟨[], 0, [], 0, [], []⟩, ⟨7, none, false⟩⟩ 4
        ⟨0, 0, [], [], [], []⟩
      = (⟨⟨5, none, true⟩, 9, ⟨[], 0, [], 0, [], []⟩, ⟨7, none, false⟩⟩,
         some .MissingRequiredSignature) ∧
    dapp_transaction_finalize ⟨5, none, true⟩ ⟨7, none, false⟩ 1 2 true 0 [] []
        (fun _ accs => .ok accs)
      = .failure .MissingRequiredSignature := by
  refine ⟨?_, ?_, ?_, ?_⟩
  · exact finalize_requires_rent_recipient_signature.1 Nat _ _ 0 _ _ 3 rfl
  · exact finalize_requires_rent_recipient_signature.2.1 _ _ rfl
  · exact finalize_requires_rent_recipient_signature.2.2.1 _ 4 _ rfl
  · exact finalize_requires_rent_recipient_signature.2.2.2 _ _ 1 2 true 0 [] []
      (fun _ accs => .ok accs) rfl

/-! ## C4: disposition thresholds -/

theorem calc_operation_disposition_spec (records : List ApprovalDispositionRecord)
    (required : Nat) :
    (calc_operation_disposition records required = .APPROVED ↔
      required ≤ count_disposition records .APPROVE) ∧
    (calc_operation_disposition records required = .DENIED ↔
      (count_disposition records .APPROVE < required ∧
       records.length - required < count_disposition records .DENY)) ∧
    (calc_operation_disposition records required = .NONE ↔
      (count_disposition records .APPROVE < required ∧
       count_disposition records .DENY ≤ records.length - required)) := by
  unfold calc_operation_disposition
  by_cases h1 : required ≤ count_disposition records .APPROVE
  · rw [if_pos h1]
    refine ⟨?_, ?_, ?_⟩ <;> simp <;> omega
  · rw [if_neg h1]
    by_cases h2 : records.length - required < count_disposition records .DENY
    · rw [if_pos h2]
      refine ⟨?_, ?_, ?_⟩ <;> simp <;> omega
    · rw [if_neg h2]
      refine ⟨?_, ?_, ?_⟩ <;> simp <;> omega

/-- C4: after every successful disposition recording the derived
operation disposition is APPROVED exactly when the APPROVE count reaches
`dispositions_required`, DENIED exactly when the DENY count exceeds
N − required (making the required approve-count impossible), and NONE
otherwise; and, concretely, a 2-of-3 operation walks to DENIED after two
DENY votes (scenario B) and to APPROVED after two APPROVE votes
(scenario A). -/
theorem record_disposition_outcome :
    (∀ (op : MultisigOp) (approver : Nat) (d : ApprovalDisposition)
       (fp : ParamsHash) (op' : MultisigOp),
      op.record_disposition approver d fp = .ok op' →
      op'.disposition_records.length = op.disposition_records.length ∧
      op'.dispositions_required = op.dispositions_required ∧
      ((op'.operation_disposition = .APPROVED ↔
         op.dispositions_required ≤ count_disposition op'.disposition_records .APPROVE) ∧
       (op'.operation_disposition = .DENIED ↔
         (count_disposition op'.disposition_records .APPROVE < op.dispositions_required ∧
          op'.disposition_records.length - op.dispositions_required
            < count_disposition op'.disposition_records .DENY)) ∧
       (op'.operation_disposition = .NONE ↔
         (count_disposition op'.disposition_records .APPROVE < op.dispositions_required ∧
          count_disposition op'.disposition_records .DENY
            ≤ op'.disposition_records.length - op.dispositions_required)))) ∧
    (∃ op1 op2 : MultisigOp,
      (MultisigOp.init [1, 2, 3] 2 0 100
          (.UpdateWalletConfigPolicy 1 ⟨1, 100, [2]⟩)).record_disposition 1 .DENY
          (hash_of_params (.UpdateWalletConfigPolicy 1 ⟨1, 100, [2]⟩)) = .ok op1 ∧
      op1.operation_disposition = .NONE ∧
      op1.record_disposition 2 .DENY
          (hash_of_params (.UpdateWalletConfigPolicy 1 ⟨1, 100, [2]⟩)) = .ok op2 ∧
      op2.operation_disposition = .DENIED) ∧
    (∃ op1 op2 : MultisigOp,
      (MultisigOp.init [1, 2, 3] 2 0 100
          (.UpdateWalletConfigPolicy 1 ⟨1, 100, [2]⟩)).record_disposition 1 .APPROVE
          (hash_of_params (.UpdateWalletConfigPolicy 1 ⟨1, 100, [2]⟩)) = .ok op1 ∧
      op1.operation_disposition = .NONE ∧
      op1.record_disposition 2 .APPROVE
          (hash_of_params (.UpdateWalletConfigPolicy 1 ⟨1, 100, [2]⟩)) = .ok op2 ∧
      op2.operation_disposition = .APPROVED) := by
  refine ⟨?_, ?_, ?_⟩
  · intro op approver d fp op' hok
    simp only [MultisigOp.record_disposition] at hok
    by_cases h1 : fp ≠ op.params_hash
    · rw [if_pos h1] at hok; cases hok
    · rw [if_neg h1] at hok
      by_cases h2 : (op.disposition_records.filter (fun r => r.approver = approver)).length = 0
      · rw [if_pos h2] at hok; cases hok
      · rw [if_neg h2] at hok
        cases hok
        refine ⟨by simp, rfl, ?_⟩
        exact calc_operation_disposition_spec _ _
  · exact ⟨⟨[⟨1, .DENY⟩, ⟨2, .NONE⟩, ⟨3, .NONE⟩], 2, 0, 100,
        hash_of_params (.UpdateWalletConfigPolicy 1 ⟨1, 100, [2]⟩), .NONE⟩,
      ⟨[⟨1, .DENY⟩, ⟨2, .DENY⟩, ⟨3, .NONE⟩], 2, 0, 100,
        hash_of_params (.UpdateWalletConfigPolicy 1 ⟨1, 100, [2]⟩), .DENIED⟩,
      by decide, by decide, by decide, by decide⟩
  · exact ⟨⟨[⟨1, .APPROVE⟩, ⟨2, .NONE⟩, ⟨3, .NONE⟩], 2, 0, 100,
        hash_of_params (.UpdateWalletConfigPolicy 1 ⟨1, 100, [2]⟩), .NONE⟩,
      ⟨[⟨1, .APPROVE⟩, ⟨2, .APPROVE⟩, ⟨3, .NONE⟩], 2, 0, 100,
        hash_of_params (.UpdateWalletConfigPolicy 1 ⟨1, 100, [2]⟩), .APPROVED⟩,
      by decide, by decide, by decide, by decide⟩

/-- Witness for C4: recording a second DENY on a concrete 2-of-3 operation
satisfies the theorem's hypotheses, and its DENIED-iff direction yields the
concrete DENIED outcome. -/
theorem record_disposition_outcome_witness :
    ({ disposition_records := [⟨1, .DENY⟩, ⟨2, .DENY⟩, ⟨3, .NONE⟩],
       dispositions_required := 2, started_at := 0, expires_at := 100,
       params_hash := hash_of_params (.UpdateWalletConfigPolicy 1 ⟨1, 100, [2]⟩),
       operation_disposition := .DENIED } : MultisigOp).operation_disposition
      = .DENIED := by
  have h := record_disposition_outcome.1
    ⟨[⟨1, .DENY⟩, ⟨2, .NONE⟩, ⟨3, .NONE⟩], 2, 0, 100,
      hash_of_params (.UpdateWalletConfigPolicy 1 ⟨1, 100, [2]⟩), .NONE⟩
    2 .DENY (hash_of_params (.UpdateWalletConfigPolicy 1 ⟨1, 100, [2]⟩))
    ⟨[⟨1, .DENY⟩, ⟨2, .DENY⟩, ⟨3, .NONE⟩], 2, 0, 100,
      hash_of_params (.UpdateWalletConfigPolicy 1 ⟨1, 100, [2]⟩), .DENIED⟩
    (by decide)
  exact h.2.2.2.1.mpr (by decide)

/-! ## C8: policy-update locks -/

/-- C8: for both lockable policy domains — the wallet-wide config policy and
a balance account's policy — the proposal handler takes the domain's lock
before creating the multisig operation and fails with the lock error when
the domain is already locked; a successful init persists the locked wallet
together with the created operation; and a successful finalize always
persists the unlocked wallet, for approved and denied outcomes alike. -/
theorem policy_update_lock_protocol :
    (∀ (opAcc : AccountInfo) (waddr : Nat) (w : Wallet) (i : Nat) (isg : Bool)
       (now : Int) (u : WalletConfigPolicyUpdate),
      w.config_policy_update_locked = true →
      w.validate_config_initiator i isg = .ok () →
      wallet_config_policy_init opAcc waddr w i isg now u
        = .error .ConcurrentOperationsNotAllowed) ∧
    (∀ (opAcc : AccountInfo) (waddr : Nat) (w : Wallet) (i : Nat) (isg : Bool)
       (now : Int) (u : WalletConfigPolicyUpdate) (w' : Wallet) (opAcc' : AccountInfo),
      wallet_config_policy_init opAcc waddr w i isg now u = .ok (w', opAcc') →
      w'.config_policy_update_locked = true ∧ opAcc'.dataOp.isSome = true) ∧
    (∀ (opAcc rentAcc : AccountInfo) (waddr : Nat) (w : Wallet) (now : Int)
       (u : WalletConfigPolicyUpdate) (w' : Wallet) (o' r' : AccountInfo),
      wallet_config_policy_finalize opAcc rentAcc waddr w now u = .ok (w', o', r') →
      w'.config_policy_update_locked = false) ∧
    (∀ (opAcc : AccountInfo) (waddr : Nat) (w : Wallet) (i : Nat) (isg : Bool)
       (now : Int) (guid : Nat) (u : BalanceAccountPolicyUpdate) (b : BalanceAccount),
      w.balance_accounts.find? (fun b => b.guid_hash == guid) = some b →
      b.policy_update_locked = true →
      w.validate_config_initiator i isg = .ok () →
      balance_account_policy_init opAcc waddr w i isg now guid u
        = .error .ConcurrentOperationsNotAllowed) ∧
    (∀ (opAcc : AccountInfo) (waddr : Nat) (w : Wallet) (i : Nat) (isg : Bool)
       (now : Int) (guid : Nat) (u : BalanceAccountPolicyUpdate) (w' : Wallet)
       (opAcc' : AccountInfo),
      balance_account_policy_init opAcc waddr w i isg now guid u = .ok (w', opAcc') →
      (∀ b ∈ w'.balance_accounts, b.guid_hash = guid → b.policy_update_locked = true) ∧
      opAcc'.dataOp.isSome = true) ∧
    (∀ (opAcc rentAcc : AccountInfo) (waddr : Nat) (w : Wallet) (now : Int)
       (guid : Nat) (u : BalanceAccountPolicyUpdate) (w' : Wallet) (o' r' : AccountInfo),
      balance_account_policy_finalize opAcc rentAcc waddr w now guid u = .ok (w', o', r') →
      ∀ b ∈ w'.balance_accounts, b.guid_hash = guid → b.policy_update_locked = false) := by
  refine ⟨?_, ?_, ?_, ?_, ?_, ?_⟩
  · intro opAcc waddr w i isg now u hlock hvi
    simp [wallet_config_policy_init, hvi, Wallet.lock_config_policy_updates, hlock]
  · intro opAcc waddr w i isg now u w' opAcc' hok
    simp only [wallet_config_policy_init] at hok
    split at hok
    · cases hok
    · split at hok
      · cases hok
      · rename_i w0 hlock
        split at hok
        · cases hok
        · split at hok
          · cases hok
          · rename_i opAcc2 hstart
            cases hok
            constructor
            · simp only [Wallet.lock_config_policy_updates] at hlock
              split at hlock
              · cases hlock
              · cases hlock; rfl
            · simp only [start_multisig_config_op] at hstart
              split at hstart
              · cases hstart
              · cases hstart; rfl
  · intro opAcc rentAcc waddr w now u w' o' r' hok
    simp only [wallet_config_policy_finalize] at hok
    split at hok
    · cases hok
    · cases hok
      simp [Wallet.unlock_config_policy_updates]
  · intro opAcc waddr w i isg now guid u b hfind hlock hvi
    simp [balance_account_policy_init, hvi,
      Wallet.lock_balance_account_policy_updates, hfind, hlock]
  · intro opAcc waddr w i isg now guid u w' opAcc' hok
    simp only [balance_account_policy_init] at hok
    split at hok
    · cases hok
    · split at hok
      · cases hok
      · rename_i w0 hlock
        split at hok
        · cases hok
        · split at hok
          · cases hok
          · rename_i opAcc2 hstart
            cases hok
            constructor
            · simp only [Wallet.lock_balance_account_policy_updates] at hlock
              split at hlock
              · cases hlock
              · split at hlock
                · cases hlock
                · cases hlock
                  intro b hb hguid
                  simp only [List.mem_map] at hb
                  obtain ⟨b0, _hb0, hbeq⟩ := hb
                  by_cases hg : b0.guid_hash == guid
                  · rw [if_pos hg] at hbeq
                    rw [← hbeq]
                  · rw [if_neg hg] at hbeq
                    subst hbeq
                    exact absurd (by simpa using hguid) hg
            · simp only [start_multisig_config_op] at hstart
              split at hstart
              · cases hstart
              · cases hstart; rfl
  · intro opAcc rentAcc waddr w now guid u w' o' r' hok
    simp only [balance_account_policy_finalize] at hok
    split at hok
    · cases hok
    · split at hok
      · cases hok
      · rename_i w2 hunlock
        cases hok
        simp only [Wallet.unlock_balance_account_policy_updates] at hunlock
        split at hunlock
        · cases hunlock
        · cases hunlock
          intro b hb hguid
          simp only [List.mem_map] at hb
          obtain ⟨b0, _hb0, hbeq⟩ := hb
          by_cases hg : b0.guid_hash == guid
          · rw [if_pos hg] at hbeq
            rw [← hbeq]
          · rw [if_neg hg] at hbeq
            subst hbeq
            exact absurd (by simpa using hguid) hg

/-- Witness for C8 on a concrete wallet: init fails while locked; a
successful init persists the lock with the operation created; a successful
finalize of a denied operation persists the unlock. -/
theorem policy_update_lock_protocol_witness :
    wallet_config_policy_init ⟨0, none, false⟩ 1 ⟨9, 1, 100, [2], true, []⟩ 9 true 0
        ⟨1, 100, [2]⟩
      = .error .ConcurrentOperationsNotAllowed ∧
    ((⟨9, 1, 100, [2], true, []⟩ : Wallet).config_policy_update_locked = true ∧
     (⟨0, some (MultisigOp.init [2] 1 0 100
         (.UpdateWalletConfigPolicy 1 ⟨1, 100, [2]⟩)), false⟩ : AccountInfo).dataOp.isSome
       = true) ∧
    (⟨9, 1, 100, [2], false, []⟩ : Wallet).config_policy_update_locked = false := by
  refine ⟨?_, ?_, ?_⟩
  · exact policy_update_lock_protocol.1 ⟨0, none, false⟩ 1 ⟨9, 1, 100, [2], true, []⟩
      9 true 0 ⟨1, 100, [2]⟩ rfl (by decide)
  · exact policy_update_lock_protocol.2.1 ⟨0, none, false⟩ 1 ⟨9, 1, 100, [2], false, []⟩
      9 true 0 ⟨1, 100, [2]⟩ ⟨9, 1, 100, [2], true, []⟩
      ⟨0, some (MultisigOp.init [2] 1 0 100
        (.UpdateWalletConfigPolicy 1 ⟨1, 100, [2]⟩)), false⟩ (by decide)
  · exact policy_update_lock_protocol.2.2.1
      ⟨5, some ⟨[⟨2, .DENY⟩], 1, 0, 100,
        hash_of_params (.UpdateWalletConfigPolicy 1 ⟨1, 100, [2]⟩), .DENIED⟩, false⟩
      ⟨7, none, true⟩ 1 ⟨9, 1, 100, [2], true, []⟩ 0 ⟨1, 100, [2]⟩
      ⟨9, 1, 100, [2], false, []⟩ ⟨0, none, false⟩ ⟨7 + 5, none, true⟩ (by decide)

/-! ## C5: finalize-without-approval is a simulation -/

/-- C5: when the dapp finalize's approval check does not yield true (false,
or an approval-check error swallowed to false), the handler runs the
simulation: with the balance account valid and every staged instruction
invocation succeeding, it samples native and SPL balances before and after
the invocations and ends in the deliberate SimulationFinished error carrying
the full balance-delta report; and on this not-approved path no outcome
whatsoever — not even a failing inner instruction — can make the handler
return success. -/
theorem dapp_finalize_simulation_always_fails :
    (∀ (opAcc rent : AccountInfo) (waddr guid : Nat) (now : Int)
       (instrs : List Instruction) (accounts accounts' : List DAccount)
       (invoke : Instruction → List DAccount → Except ProgErr (List DAccount))
       (op : MultisigOp),
      rent.is_signer = true →
      opAcc.dataOp = some op →
      op.approved (.DAppTransaction waddr guid instrs) now ≠ .ok true →
      invoke_all invoke instrs accounts = .ok accounts' →
      dapp_transaction_finalize opAcc rent waddr guid true now instrs accounts invoke
        = .simulation (balance_changes_from_simulation (account_balances accounts)
            (spl_balances accounts) (account_balances accounts')
            (spl_balances accounts') accounts')) ∧
    (∀ (opAcc rent : AccountInfo) (waddr guid : Nat) (bav : Bool) (now : Int)
       (instrs : List Instruction) (accounts : List DAccount)
       (invoke : Instruction → List DAccount → Except ProgErr (List DAccount)),
      (∀ op : MultisigOp, opAcc.dataOp = some op →
        op.approved (.DAppTransaction waddr guid instrs) now ≠ .ok true) →
      ∀ (o r : AccountInfo) (a2 : List DAccount),
        dapp_transaction_finalize opAcc rent waddr guid bav now instrs accounts invoke
          ≠ .success o r a2) := by
  constructor
  · intro opAcc rent waddr guid now instrs accounts accounts' invoke op hsig hdata happ hinv
    cases happr : op.approved (.DAppTransaction waddr guid instrs) now with
    | ok b =>
      have hb : b = false := by
        cases b
        · rfl
        · exact absurd happr happ
      subst hb
      simp [dapp_transaction_finalize, hsig, hdata, happr, hinv]
    | error e =>
      simp [dapp_transaction_finalize, hsig, hdata, happr, hinv]
  · intro opAcc rent waddr guid bav now instrs accounts invoke hno o r a2
    by_cases hsig : rent.is_signer = false
    · simp [dapp_transaction_finalize, hsig]
    · have hsig' : rent.is_signer = true := by
        cases h : rent.is_signer
        · exact absurd h hsig
        · rfl
      cases hdata : opAcc.dataOp with
      | none => simp [dapp_transaction_finalize, hsig', hdata]
      | some op =>
        cases happr : op.approved (.DAppTransaction waddr guid instrs) now with
        | ok b =>
          have hb : b = false := by
            cases b
            · rfl
            · exact absurd happr (hno op hdata)
          subst hb
          cases bav
          · simp [dapp_transaction_finalize, hsig', hdata, happr]
          · cases hinv : invoke_all invoke instrs accounts with
            | ok a' => simp [dapp_transaction_finalize, hsig', hdata, happr, hinv]
            | error e => simp [dapp_transaction_finalize, hsig', hdata, happr, hinv]
        | error e =>
          cases bav
          · simp [dapp_transaction_finalize, hsig', hdata, happr]
          · cases hinv : invoke_all invoke instrs accounts with
            | ok a' => simp [dapp_transaction_finalize, hsig', hdata, happr, hinv]
            | error e2 => simp [dapp_transaction_finalize, hsig', hdata, happr, hinv]

/-- Witness for C5: a concrete unapproved dapp finalize whose single staged
instruction raises an account's balance ends in the simulation error with
the before/after balance samples reported. -/
theorem dapp_finalize_simulation_witness :
    dapp_transaction_finalize
        ⟨5, some ⟨[⟨2, .NONE⟩], 1, 0, 100,
          hash_of_params (.DAppTransaction 1 2 [⟨5⟩]), .NONE⟩, false⟩
        ⟨7, none, true⟩ 1 2 true 0 [⟨5⟩] [⟨3, 0, 50, none⟩]
        (fun _ _ => .ok [⟨3, 0, 60, none⟩])
      = .simulation (balance_changes_from_simulation
          (account_balances [⟨3, 0, 50, none⟩]) (spl_balances [⟨3, 0, 50, none⟩])
          (account_balances [⟨3, 0, 60, none⟩]) (spl_balances [⟨3, 0, 60, none⟩])
          [⟨3, 0, 60, none⟩]) :=
  dapp_finalize_simulation_always_fails.1
    ⟨5, some ⟨[⟨2, .NONE⟩], 1, 0, 100,
      hash_of_params (.DAppTransaction 1 2 [⟨5⟩]), .NONE⟩, false⟩
    ⟨7, none, true⟩ 1 2 0 [⟨5⟩] [⟨3, 0, 50, none⟩] [⟨3, 0, 60, none⟩]
    (fun _ _ => .ok [⟨3, 0, 60, none⟩])
    ⟨[⟨2, .NONE⟩], 1, 0, 100, hash_of_params (.DAppTransaction 1 2 [⟨5⟩]), .NONE⟩
    rfl rfl (by decide) (by decide)

/-! ## C3: threshold bound and atomicity of config updates -/

theorem update_signers_phase_arfc (cfg : ProgramConfig) (u : ProgramConfigUpdate)
    (cfg1 : ProgramConfig) (h : update_signers_phase cfg u = .ok cfg1) :
    cfg1.approvals_required_for_config = cfg.approvals_required_for_config := by
  simp only [update_signers_phase] at h
  split at h
  · split at h
    · cases h
    · cases h; rfl
  · cases h; rfl

theorem update_config_approvers_phase_arfc (cfg : ProgramConfig)
    (u : ProgramConfigUpdate) (cfg1 : ProgramConfig)
    (h : update_config_approvers_phase cfg u = .ok cfg1) :
    cfg1.approvals_required_for_config = cfg.approvals_required_for_config := by
  simp only [update_config_approvers_phase] at h
  split at h
  · split at h
    · cases h
    · cases h; rfl
  · cases h; rfl

theorem update_address_book_phase_arfc (cfg : ProgramConfig)
    (u : ProgramConfigUpdate) (cfg1 : ProgramConfig)
    (h : update_address_book_phase cfg u = .ok cfg1) :
    cfg1.approvals_required_for_config = cfg.approvals_required_for_config := by
  simp only [update_address_book_phase] at h
  split at h
  · split at h
    · cases h
    · cases h; rfl
  · cases h; rfl

theorem update_transfer_approvers_block_arft (signers : List (Option Nat))
    (wc : WalletConfig) (u : WalletConfigUpdate) (wc1 : WalletConfig)
    (h : update_transfer_approvers_block signers wc u = .ok wc1) :
    wc1.approvals_required_for_transfer = wc.approvals_required_for_transfer := by
  simp only [update_transfer_approvers_block] at h
  split at h
  · split at h
    · cases h
    · cases h; rfl
  · cases h; rfl

theorem update_allowed_destinations_block_arft (address_book : List (Option Nat))
    (wc : WalletConfig) (u : WalletConfigUpdate) (wc1 : WalletConfig)
    (h : update_allowed_destinations_block address_book wc u = .ok wc1) :
    wc1.approvals_required_for_transfer = wc.approvals_required_for_transfer := by
  simp only [update_allowed_destinations_block] at h
  split at h
  · split at h
    · cases h
    · cases h; rfl
  · cases h; rfl

/-- C3: (1) an accepted program-level update leaves
`approvals_required_for_config ≤ popcount(config_approvers)`; (2) an
accepted wallet-level update leaves the updated wallet with
`approvals_required_for_transfer ≤ popcount(transfer_approvers)`; (3, 4)
when the in-memory update fails on an otherwise approved finalize, the
handler returns the error with the persisted account state exactly as it was
(the pack step is never reached — no partial application). -/
theorem config_update_threshold_bound_atomic :
    (∀ (cfg : ProgramConfig) (u : ProgramConfigUpdate) (cfg' : ProgramConfig),
      cfg.update u = .ok cfg' →
      cfg'.approvals_required_for_config ≤ cfg'.config_approvers.count true) ∧
    (∀ (cfg : ProgramConfig) (guid : Nat) (u : WalletConfigUpdate) (cfg' : ProgramConfig),
      cfg.update_wallet_config guid u = .ok cfg' →
      ∃ idx wc', cfg.wallets.findIdx? (fun w => w.wallet_guid_hash == guid) = some idx ∧
        cfg' = { cfg with wallets := cfg.wallets.set idx wc' } ∧
        wc'.approvals_required_for_transfer = u.approvals_required_for_transfer ∧
        wc'.approvals_required_for_transfer ≤ wc'.transfer_approvers.count true) ∧
    (∀ (st : ConfigChainState) (u : ProgramConfigUpdate) (op : MultisigOp) (e : ProgErr),
      st.rent_account.is_signer = true →
      st.op_account.dataOp = some op →
      op.approved_no_clock (.UpdateProgramConfig st.config_account_address u) = .ok true →
      st.config_data.update u = .error e →
      handle_finalize_config_update st u = (st, some e)) ∧
    (∀ (st : ConfigChainState) (guid : Nat) (u : WalletConfigUpdate) (op : MultisigOp)
       (e : ProgErr),
      st.rent_account.is_signer = true →
      st.op_account.dataOp = some op →
      op.approved_no_clock (.UpdateWalletConfig st.config_account_address guid u) = .ok true →
      st.config_data.update_wallet_config guid u = .error e →
      handle_finalize_wallet_config_update st guid u = (st, some e)) := by
  refine ⟨?_, ?_, ?_, ?_⟩
  · intro cfg u cfg' hok
    simp only [ProgramConfig.update] at hok
    cases h1 : update_signers_phase
        { cfg with approvals_required_for_config := u.approvals_required_for_config } u with
    | error e => rw [h1] at hok; cases hok
    | ok cfg1 =>
      rw [h1] at hok
      dsimp only at hok
      cases h2 : update_config_approvers_phase cfg1 u with
      | error e => rw [h2] at hok; cases hok
      | ok cfg2 =>
        rw [h2] at hok
        dsimp only at hok
        cases h3 : update_address_book_phase cfg2 u with
        | error e => rw [h3] at hok; cases hok
        | ok cfg3 =>
          rw [h3] at hok
          dsimp only at hok
          by_cases h4 : cfg3.config_approvers.count true < u.approvals_required_for_config
          · rw [if_pos h4] at hok; cases hok
          · rw [if_neg h4] at hok
            cases hok
            have e1 := update_signers_phase_arfc _ _ _ h1
            have e2 := update_config_approvers_phase_arfc _ _ _ h2
            have e3 := update_address_book_phase_arfc _ _ _ h3
            simp only at e1
            omega
  · intro cfg guid u cfg' hok
    simp only [ProgramConfig.update_wallet_config] at hok
    cases hf : cfg.wallets.findIdx? (fun w => w.wallet_guid_hash == guid) with
    | none => rw [hf] at hok; cases hok
    | some idx =>
      rw [hf] at hok
      dsimp only at hok
      cases hin : update_wallet_config_inner cfg.signers cfg.address_book
          (cfg.wallets.getD idx ⟨0, 0, 0, [], []⟩) u with
      | error e => rw [hin] at hok; cases hok
      | ok wc' =>
        rw [hin] at hok
        dsimp only at hok
        cases hok
        refine ⟨idx, wc', rfl, rfl, ?_⟩
        simp only [update_wallet_config_inner] at hin
        cases hb1 : update_transfer_approvers_block cfg.signers
            { cfg.wallets.getD idx ⟨0, 0, 0, [], []⟩ with
              wallet_name_hash := u.name_hash
              approvals_required_for_transfer := u.approvals_required_for_transfer } u with
        | error e => rw [hb1] at hin; cases hin
        | ok wc1 =>
          rw [hb1] at hin
          dsimp only at hin
          cases hb2 : update_allowed_destinations_block cfg.address_book wc1 u with
          | error e => rw [hb2] at hin; cases hin
          | ok wc2 =>
            rw [hb2] at hin
            dsimp only at hin
            by_cases h4 : wc2.transfer_approvers.count true < u.approvals_required_for_transfer
            · rw [if_pos h4] at hin; cases hin
            · rw [if_neg h4] at hin
              cases hin
              have e1 := update_transfer_approvers_block_arft _ _ _ _ hb1
              have e2 := update_allowed_destinations_block_arft _ _ _ _ hb2
              simp only at e1
              omega
  · intro st u op e hsig hdata happr hupd
    simp [handle_finalize_config_update, hsig, hdata, happr, hupd]
  · intro st guid u op e hsig hdata happr hupd
    simp [handle_finalize_wallet_config_update, hsig, hdata, happr, hupd]

/-- Witness for C3: a concrete accepted update (raising the threshold to 2
while adding a second approver) satisfies the bound, and a concrete
threshold-violating update makes the approved finalize handler return the
error with the state untouched. -/
theorem config_update_threshold_bound_atomic_witness :
    (⟨[some 1, some 2], 9, [none], 2, [true, true],
      [⟨4, 0, 1, [true, false], [false]⟩]⟩ : ProgramConfig).approvals_required_for_config
      ≤ (⟨[some 1, some 2], 9, [none], 2, [true, true],
          [⟨4, 0, 1, [true, false], [false]⟩]⟩ : ProgramConfig).config_approvers.count true ∧
    handle_finalize_config_update
        ⟨⟨5, some ⟨[], 1, 0, 100,
            hash_of_params (.UpdateProgramConfig 8 ⟨5, [], [], [], [], [], []⟩),
            .APPROVED⟩, false⟩, 8,
          ⟨[some 1, some 2], 9, [none], 1, [true, false],
            [⟨4, 0, 1, [true, false], [false]⟩]⟩, ⟨7, none, true⟩⟩
        ⟨5, [], [], [], [], [], []⟩
      = (⟨⟨5, some ⟨[], 1, 0, 100,
            hash_of_params (.UpdateProgramConfig 8 ⟨5, [], [], [], [], [], []⟩),
            .APPROVED⟩, false⟩, 8,
          ⟨[some 1, some 2], 9, [none], 1, [true, false],
            [⟨4, 0, 1, [true, false], [false]⟩]⟩, ⟨7, none, true⟩⟩,
         some .InvalidArgument) := by
  constructor
  · exact config_update_threshold_bound_atomic.1
      ⟨[some 1, some 2], 9, [none], 1, [true, false], [⟨4, 0, 1, [true, false], [false]⟩]⟩
      ⟨2, [], [], [2], [], [], []⟩
      ⟨[some 1, some 2], 9, [none], 2, [true, true], [⟨4, 0, 1, [true, false], [false]⟩]⟩
      (by decide)
  · exact config_update_threshold_bound_atomic.2.2.1
      ⟨⟨5, some ⟨[], 1, 0, 100,
          hash_of_params (.UpdateProgramConfig 8 ⟨5, [], [], [], [], [], []⟩),
          .APPROVED⟩, false⟩, 8,
        ⟨[some 1, some 2], 9, [none], 1, [true, false],
          [⟨4, 0, 1, [true, false], [false]⟩]⟩, ⟨7, none, true⟩⟩
      ⟨5, [], [], [], [], [], []⟩
      ⟨[], 1, 0, 100, hash_of_params (.UpdateProgramConfig 8 ⟨5, [], [], [], [], [], []⟩),
        .APPROVED⟩
      .InvalidArgument rfl rfl (by decide) (by decide)

/-! ## C6: removals propagate to every dependent bitset -/

theorem registry_remove_getD_none (arr : List (Option Nat)) (items : List Nat)
    (i s : Nat) (hi : arr.getD i none = some s) (hs : s ∈ items) :
    (registry_remove arr items).getD i none = none := by
  have hidx : arr[i]? = some (some s) := by
    rw [List.getD_eq_getElem?_getD] at hi
    cases h : arr[i]? with
    | none => rw [h] at hi; simp at hi
    | some v => rw [h] at hi; simp at hi; simp [h, hi]
  simp [registry_remove, List.getD_eq_getElem?_getD, hidx, hs]

theorem mem_registry_matching_indexes (arr : List (Option Nat)) (items : List Nat)
    (i s : Nat) (hi : arr.getD i none = some s) (hs : s ∈ items) :
    i ∈ registry_matching_indexes arr items := by
  have hlen : i < arr.length := by
    by_contra hcon
    rw [List.getD_eq_getElem?_getD, List.getElem?_eq_none (by omega)] at hi
    simp at hi
  have hp : (match arr.getD i none with
      | some x => decide (x ∈ items)
      | none => false) = true := by
    rw [hi]; simpa using hs
  simp only [registry_matching_indexes, List.mem_filter, List.mem_range]
  exact ⟨hlen, hp⟩

theorem not_mem_matching_of_none (arr : List (Option Nat)) (items : List Nat)
    (i : Nat) (hi : arr.getD i none = none) :
    i ∉ registry_matching_indexes arr items := by
  intro hmem
  simp only [registry_matching_indexes, List.mem_filter, List.mem_range] at hmem
  rw [hi] at hmem
  simp at hmem

theorem update_signers_phase_removal (cfg : ProgramConfig) (u : ProgramConfigUpdate)
    (cfg1 : ProgramConfig) (i s : Nat)
    (h : update_signers_phase cfg u = .ok cfg1)
    (hadd : u.add_signers = [])
    (hslot : cfg.signers.getD i none = some s)
    (hrem : s ∈ u.remove_signers) :
    cfg1.signers.getD i none = none ∧
    cfg1.config_approvers.getD i false = false ∧
    ∀ w ∈ cfg1.wallets, w.transfer_approvers.getD i false = false := by
  simp only [update_signers_phase] at h
  rw [if_pos (Or.inr (List.length_pos.mpr (List.ne_nil_of_mem hrem)))] at h
  rw [hadd] at h
  simp only [registry_add] at h
  cases h
  refine ⟨?_, ?_, ?_⟩
  · exact registry_remove_getD_none _ _ _ _ hslot hrem
  · exact clear_bits_getD_of_mem _ _ _
      (mem_registry_matching_indexes _ _ _ _ hslot hrem)
  · intro w hw
    simp only [List.mem_map] at hw
    obtain ⟨w0, _hw0, rfl⟩ := hw
    exact clear_bits_getD_of_mem _ _ _
      (mem_registry_matching_indexes _ _ _ _ hslot hrem)

theorem update_config_approvers_phase_preserves (cfg1 : ProgramConfig)
    (u : ProgramConfigUpdate) (cfg2 : ProgramConfig) (i : Nat)
    (h : update_config_approvers_phase cfg1 u = .ok cfg2)
    (hsigner : cfg1.signers.getD i none = none)
    (hbit : cfg1.config_approvers.getD i false = false) :
    cfg2.signers = cfg1.signers ∧ cfg2.wallets = cfg1.wallets ∧
    cfg2.config_approvers.getD i false = false := by
  simp only [update_config_approvers_phase] at h
  split at h
  · split at h
    · cases h
    · cases h
      refine ⟨rfl, rfl, ?_⟩
      rw [set_bits_getD_of_not_mem _ _ _ (not_mem_matching_of_none _ _ _ hsigner)]
      exact clear_bits_getD_of_false _ _ _ hbit
  · cases h; exact ⟨rfl, rfl, hbit⟩

theorem update_address_book_phase_preserves (cfg2 : ProgramConfig)
    (u : ProgramConfigUpdate) (cfg3 : ProgramConfig)
    (h : update_address_book_phase cfg2 u = .ok cfg3) :
    cfg3.signers = cfg2.signers ∧ cfg3.config_approvers = cfg2.config_approvers ∧
    ∀ w ∈ cfg3.wallets, ∃ w0 ∈ cfg2.wallets, w.transfer_approvers = w0.transfer_approvers := by
  simp only [update_address_book_phase] at h
  split at h
  · split at h
    · cases h
    · cases h
      refine ⟨rfl, rfl, ?_⟩
      intro w hw
      simp only [List.mem_map] at hw
      obtain ⟨w0, hw0, rfl⟩ := hw
      exact ⟨w0, hw0, rfl⟩
  · cases h
    exact ⟨rfl, rfl, fun w hw => ⟨w, hw, rfl⟩⟩

/-- C6: for an accepted program-level update that removes signer `s` (held
at registry slot i) and adds no signer, the freed slot's bit is cleared in
the same mutation in the top-level config-approvers bitset and in the
transfer-approvers bitset of every wallet, and the registry slot itself is
left free for reuse — the removed signer loses approver status everywhere at
once. -/
theorem removed_signer_loses_approver_status (cfg : ProgramConfig)
    (u : ProgramConfigUpdate) (cfg' : ProgramConfig) (s i : Nat)
    (hadd : u.add_signers = [])
    (hrem : s ∈ u.remove_signers)
    (hslot : cfg.signers.getD i none = some s)
    (hupd : cfg.update u = .ok cfg') :
    cfg'.signers.getD i none = none ∧
    cfg'.config_approvers.getD i false = false ∧
    ∀ w ∈ cfg'.wallets, w.transfer_approvers.getD i false = false := by
  simp only [ProgramConfig.update] at hupd
  cases h1 : update_signers_phase
      { cfg with approvals_required_for_config := u.approvals_required_for_config } u with
  | error e => rw [h1] at hupd; cases hupd
  | ok cfg1 =>
    rw [h1] at hupd
    dsimp only at hupd
    cases h2 : update_config_approvers_phase cfg1 u with
    | error e => rw [h2] at hupd; cases hupd
    | ok cfg2 =>
      rw [h2] at hupd
      dsimp only at hupd
      cases h3 : update_address_book_phase cfg2 u with
      | error e => rw [h3] at hupd; cases hupd
      | ok cfg3 =>
        rw [h3] at hupd
        dsimp only at hupd
        by_cases h4 : cfg3.config_approvers.count true < u.approvals_required_for_config
        · rw [if_pos h4] at hupd; cases hupd
        · rw [if_neg h4] at hupd
          cases hupd
          have hp1 := update_signers_phase_removal _ u cfg1 i s h1 hadd hslot hrem
          have hp2 := update_config_approvers_phase_preserves cfg1 u cfg2 i h2 hp1.1 hp1.2.1
          have hp3 := update_address_book_phase_preserves cfg2 u cfg' h3
          refine ⟨?_, ?_, ?_⟩
          · rw [hp3.1, hp2.1]; exact hp1.1
          · rw [hp3.2.1]; exact hp2.2.2
          · intro w hw
            obtain ⟨w0, hw0, heq⟩ := hp3.2.2 w hw
            rw [heq]
            rw [hp2.2.1] at hw0
            exact hp1.2.2 w0 hw0

/-- Witness for C6, spec scenario C: removing signer 6 (slot 1), a config
approver and a transfer approver on two wallets, clears its bit in all three
bitsets and frees its registry slot. -/
theorem removed_signer_loses_approver_status_witness :
    (⟨[some 5, none], 9, [], 1, [true, false],
      [⟨4, 0, 1, [true, false], []⟩, ⟨7, 0, 1, [false, false], []⟩]⟩
        : ProgramConfig).signers.getD 1 none = none ∧
    (⟨[some 5, none], 9, [], 1, [true, false],
      [⟨4, 0, 1, [true, false], []⟩, ⟨7, 0, 1, [false, false], []⟩]⟩
        : ProgramConfig).config_approvers.getD 1 false = false ∧
    ∀ w ∈ (⟨[some 5, none], 9, [], 1, [true, false],
      [⟨4, 0, 1, [true, false], []⟩, ⟨7, 0, 1, [false, false], []⟩]⟩
        : ProgramConfig).wallets, w.transfer_approvers.getD 1 false = false :=
  removed_signer_loses_approver_status
    ⟨[some 5, some 6], 9, [], 1, [true, true],
      [⟨4, 0, 1, [true, true], []⟩, ⟨7, 0, 1, [false, true], []⟩]⟩
    ⟨1, [], [6], [], [], [], []⟩
    ⟨[some 5, none], 9, [], 1, [true, false],
      [⟨4, 0, 1, [true, false], []⟩, ⟨7, 0, 1, [false, false], []⟩]⟩
    6 1 rfl (by decide) (by decide) (by decide)
